import Mathlib

/-!
A shallow embedding of the sensor task manager (`sensor_task.c` and
`sensor_task.h`) of the EnviroSense firmware.

The registry, the per-sensor scheduler step, the analytics engine and the
fault-handling escalation are translated into pure functions over an explicit
`SensorManager_t` state (the C module keeps this state in the static
`g_sensor_manager`).  Machine integers are modelled as `Nat`, with an explicit
`% 2 ^ 32` wherever the C code performs `uint32_t` arithmetic whose wrap-around
is observable, and C `float` values are modelled as exact rationals `ℚ`.

Adapter callbacks are external code supplied at registration: their function
pointers are modelled as opaque `Option Nat` values (`none` is a NULL pointer),
and the outcome of an adapter call (the boolean result, plus the reading that a
successful `read_func` writes into `instance->data.values`) is passed to each
scheduler step as an explicit oracle parameter.  The FreeRTOS mutex always
succeeds in this sequential model: the scheduler's write path waits forever for
it and the query paths use a 100 ms timeout that is modelled as succeeding.
The event callback is modelled by a flag `cb` saying whether a callback is
registered, together with the list of events the step hands to it.
-/

/-- `SENSOR_HISTORY_SIZE` from sensor_task.h: capacity of each circular
history buffer. -/
def SENSOR_HISTORY_SIZE : Nat := 20

/-- `SENSOR_MAX_NAME_LEN` from sensor_task.h. -/
def SENSOR_MAX_NAME_LEN : Nat := 32

/-- `SENSOR_TYPE_NONE` from the `SensorType_t` enum. -/
def SENSOR_TYPE_NONE : Nat := 0

/-- `SENSOR_TYPE_GY30` from the `SensorType_t` enum. -/
def SENSOR_TYPE_GY30 : Nat := 1

/-- `SENSOR_TYPE_SHT30` from the `SensorType_t` enum. -/
def SENSOR_TYPE_SHT30 : Nat := 2

/-- `SENSOR_TYPE_SMOKE` from the `SensorType_t` enum. -/
def SENSOR_TYPE_SMOKE : Nat := 3

/-- `SENSOR_TYPE_MAX` from the `SensorType_t` enum. -/
def SENSOR_TYPE_MAX : Nat := 4

/-- Modulus of `uint32_t` arithmetic. -/
def UINT32_MOD : Nat := 2 ^ 32

/-- `SensorStatus_t` from sensor_task.h. -/
inductive SensorStatus_t where
  | offline
  | online
  | error
  | initializing
  deriving DecidableEq

/-- `SensorEventType_t` from sensor_task.h. -/
inductive SensorEventType_t where
  | data_update
  | status_change
  | error
  deriving DecidableEq

/-- The union inside `SensorData_t`.  In C this is an untagged union whose
member is selected by `sensor->type`; each adapter writes the member of its own
kind, so only tag-consistent values occur.  `noneVal` stands for the
all-zero-bytes contents the union has after `memset`. -/
inductive SensorValues where
  | noneVal
  | gy30 (lux : ℚ)
  | sht30 (temp humi : ℚ)
  | smoke (ppm : ℤ)
  deriving DecidableEq

/-- `SensorData_t` from sensor_task.h. -/
structure SensorData_t where
  values : SensorValues
  timestamp : Nat
  is_valid : Bool
  deriving DecidableEq

/-- `SensorStats_t` from sensor_task.h: `min`, `max`, `avg` are the lifetime
("global") statistics, `local_min`, `local_max`, `local_avg` the windowed
statistics over the current history buffer contents. -/
structure SensorStats_t where
  min : ℚ
  max : ℚ
  avg : ℚ
  local_min : ℚ
  local_max : ℚ
  local_avg : ℚ
  deriving DecidableEq

/-- `SensorInstance_t` from sensor_task.h.  The `char name[32]` array is
modelled as the list of characters before the terminating NUL; the two
`float history[SENSOR_HISTORY_SIZE]` arrays are modelled as total functions
(only indices below `SENSOR_HISTORY_SIZE` are ever used); `device_handle` is
an opaque pointer value. -/
structure SensorInstance_t where
  type : Nat
  name : List Char
  status : SensorStatus_t
  data : SensorData_t
  update_interval_ms : Nat
  last_update_time : Nat
  error_count : Nat
  is_enabled : Bool
  device_handle : Nat
  stats : SensorStats_t
  secondary_stats : SensorStats_t
  history : Nat → ℚ
  secondary_history : Nat → ℚ
  history_head : Nat
  history_count : Nat

/-- `SensorCallbacks_t` from sensor_task.h; the four function pointers are
opaque, `none` meaning NULL. -/
structure SensorCallbacks_t where
  init_func : Option Nat
  read_func : Option Nat
  deinit_func : Option Nat
  get_unit : Option Nat
  deriving DecidableEq

/-- `SensorManager_t` from sensor_task.h (the mutex and its handle are not
part of the sequential model). -/
structure SensorManager_t where
  sensors : Nat → SensorInstance_t
  callbacks : Nat → SensorCallbacks_t
  is_initialized : Bool
  active_sensor_count : Nat

/-- `SensorEvent_t` from sensor_task.h. -/
structure SensorEvent_t where
  event_type : SensorEventType_t
  sensor_type : Nat
  data : SensorData_t
  status : SensorStatus_t
  deriving DecidableEq

/-- Result of a registry operation: the new manager state, the C `bool` return
value, the events handed to the registered event callback, and whether the
adapter's `deinit_func` was invoked during the operation. -/
structure OpResult where
  manager : SensorManager_t
  ret : Bool
  events : List SensorEvent_t
  deinit_called : Bool

/-- All-zero `SensorStats_t`, as left by `memset(&g_sensor_manager, 0, ...)`. -/
def zeroStats : SensorStats_t := ⟨0, 0, 0, 0, 0, 0⟩

/-- All-zero `SensorData_t`. -/
def zeroData : SensorData_t := ⟨.noneVal, 0, false⟩

/-- All-zero `SensorCallbacks_t` (all four pointers NULL). -/
def zeroCallbacks : SensorCallbacks_t := ⟨none, none, none, none⟩

/-- An all-zero `SensorInstance_t`, as left by `memset`. -/
def zeroInstance : SensorInstance_t where
  type := 0
  name := []
  status := .offline
  data := zeroData
  update_interval_ms := 0
  last_update_time := 0
  error_count := 0
  is_enabled := false
  device_handle := 0
  stats := zeroStats
  secondary_stats := zeroStats
  history := fun _ => 0
  secondary_history := fun _ => 0
  history_head := 0
  history_count := 0

/-- Store a new value for the instance slot `i` (the C code mutates
`g_sensor_manager.sensors[i]` in place). -/
def SensorManager_t.setSensor (m : SensorManager_t) (i : Nat)
    (s : SensorInstance_t) : SensorManager_t :=
  { m with sensors := Function.update m.sensors i s }

/-- `SensorTask_NotifyEvent`: when a callback is registered (`cb`), it receives
one event whose `data` field is the supplied reading, or stays zeroed when the
C code passes `NULL` (the designated initializer zeroes the field). -/
def SensorTask_NotifyEvent (cb : Bool) (event_type : SensorEventType_t)
    (sensor_type : Nat) (data : Option SensorData_t)
    (status : SensorStatus_t) : List SensorEvent_t :=
  if cb then
    [{ event_type := event_type, sensor_type := sensor_type,
       data := data.getD zeroData, status := status }]
  else []

/-- The state `g_sensor_manager` is left in by a successful `SensorTask_Init`:
everything zeroed, then every slot `i < SENSOR_TYPE_MAX` gets `type := i`,
`status := OFFLINE` and the placeholder name `Sensor_i` (via `snprintf` with
buffer size `SENSOR_MAX_NAME_LEN`), then `is_initialized := true` and
`active_sensor_count := 0`. -/
def SensorTask_Init : SensorManager_t where
  sensors := fun i =>
    if i < SENSOR_TYPE_MAX then
      { zeroInstance with
          type := i
          status := .offline
          name := (String.toList ("Sensor_" ++ toString i)).take
            (SENSOR_MAX_NAME_LEN - 1) }
    else zeroInstance
  callbacks := fun _ => zeroCallbacks
  is_initialized := true
  active_sensor_count := 0

/-- `SensorTask_EnableSensor` (sensor_task.c lines 167-188). -/
def SensorTask_EnableSensor (m : SensorManager_t) (type : Nat)
    (cb : Bool) : OpResult :=
  if ¬m.is_initialized ∨ SENSOR_TYPE_MAX ≤ type ∨ type = SENSOR_TYPE_NONE then
    ⟨m, false, [], false⟩
  else
    let s := m.sensors type
    if ¬s.is_enabled then
      let s1 := { s with is_enabled := true, status := .initializing,
                         error_count := 0 }
      ⟨{ m.setSensor type s1 with
           active_sensor_count := (m.active_sensor_count + 1) % UINT32_MOD },
        true,
        SensorTask_NotifyEvent cb .status_change type none .initializing,
        false⟩
    else ⟨m, true, [], false⟩

/-- `SensorTask_DisableSensor` (sensor_task.c lines 193-219).  The adapter's
`deinit_func`, when present, is invoked on the instance before it is marked
offline; being external code it is modelled as leaving the model state
unchanged, and the fact that it ran is reported in `deinit_called`. -/
def SensorTask_DisableSensor (m : SensorManager_t) (type : Nat)
    (cb : Bool) : OpResult :=
  if ¬m.is_initialized ∨ SENSOR_TYPE_MAX ≤ type ∨ type = SENSOR_TYPE_NONE then
    ⟨m, false, [], false⟩
  else
    let s := m.sensors type
    if s.is_enabled then
      let dcall := ((m.callbacks type).deinit_func).isSome
      let s1 := { s with is_enabled := false, status := .offline }
      ⟨{ m.setSensor type s1 with
           active_sensor_count :=
             (m.active_sensor_count + UINT32_MOD - 1) % UINT32_MOD },
        true,
        SensorTask_NotifyEvent cb .status_change type none .offline,
        dcall⟩
    else ⟨m, true, [], false⟩

/-- `SensorTask_RegisterSensor` (sensor_task.c lines 135-162).  `strncpy` into
the 32-byte name array with forced NUL at index 31 stores the first 31
characters of the argument. -/
def SensorTask_RegisterSensor (m : SensorManager_t) (type : Nat)
    (name : List Char) (callbacks : Option SensorCallbacks_t)
    (device_handle : Nat) (update_interval_ms : Nat) (cb : Bool) : OpResult :=
  match callbacks with
  | none => ⟨m, false, [], false⟩
  | some cbs =>
    if ¬m.is_initialized ∨ SENSOR_TYPE_MAX ≤ type ∨ type = SENSOR_TYPE_NONE ∨
        cbs.init_func = none ∨ cbs.read_func = none then
      ⟨m, false, [], false⟩
    else
      let s := m.sensors type
      let s1 := { s with
          name := name.take (SENSOR_MAX_NAME_LEN - 1)
          device_handle := device_handle
          update_interval_ms := update_interval_ms
          error_count := 0
          is_enabled := false }
      let m1 := { m.setSensor type s1 with
          callbacks := Function.update m.callbacks type cbs }
      let e := SensorTask_EnableSensor m1 type cb
      ⟨e.manager, true, e.events, false⟩

/-- `SensorTask_GetSensorData` (sensor_task.c lines 224-241).  `data_null`
models passing a NULL output pointer; `none` models a `false` return (no
write through the pointer). -/
def SensorTask_GetSensorData (m : SensorManager_t) (type : Nat)
    (data_null : Bool) : Option SensorData_t :=
  if ¬m.is_initialized ∨ SENSOR_TYPE_MAX ≤ type ∨ type = SENSOR_TYPE_NONE ∨
      data_null then
    none
  else
    let s := m.sensors type
    if s.is_enabled ∧ s.data.is_valid then some s.data else none

/-- `SensorTask_GetSensorStatus` (sensor_task.c lines 249-264).  Note that,
unlike the other per-kind entry points, its guard does not reject
`SENSOR_TYPE_NONE`. -/
def SensorTask_GetSensorStatus (m : SensorManager_t) (type : Nat)
    (status_null : Bool) : Option SensorStatus_t :=
  if ¬m.is_initialized ∨ SENSOR_TYPE_MAX ≤ type ∨ status_null then none
  else some (m.sensors type).status

/-- `SensorTask_SetUpdateInterval` (sensor_task.c lines 269-280). -/
def SensorTask_SetUpdateInterval (m : SensorManager_t) (type : Nat)
    (interval_ms : Nat) : SensorManager_t × Bool :=
  if ¬m.is_initialized ∨ SENSOR_TYPE_MAX ≤ type ∨ type = SENSOR_TYPE_NONE ∨
      interval_ms < 100 then
    (m, false)
  else
    (m.setSensor type
      { m.sensors type with update_interval_ms := interval_ms }, true)

/-- The `switch (sensor->type)` of `SensorTask_UpdateSensor` (lines 398-414)
extracting `primary_value` and `secondary_value` from the fresh reading; both
locals start at `0.0f` and the `default` case leaves them there. -/
def extractValues (type : Nat) (v : SensorValues) : ℚ × ℚ :=
  if type = SENSOR_TYPE_SHT30 then
    match v with
    | .sht30 temp humi => (temp, humi)
    | _ => (0, 0)
  else if type = SENSOR_TYPE_GY30 then
    match v with
    | .gy30 lux => (lux, 0)
    | _ => (0, 0)
  else if type = SENSOR_TYPE_SMOKE then
    match v with
    | .smoke ppm => ((ppm : ℚ), 0)
    | _ => (0, 0)
  else (0, 0)

/-- The circular buffer `h` read starting at slot `start`, for `len` logical
positions, each taken modulo `SENSOR_HISTORY_SIZE` — the access pattern of the
statistics rescan loop (lines 461-478) and of the history unrolling loops. -/
def unroll (h : Nat → ℚ) (start len : Nat) : List ℚ :=
  (List.range len).map fun i => h ((start + i) % SENSOR_HISTORY_SIZE)

/-- Fold of `if (v < acc) acc = v;` over a list, seeded with `a` — the running
minimum of the statistics rescan loop. -/
def runMin (a : ℚ) (l : List ℚ) : ℚ :=
  l.foldl (fun acc v => if v < acc then v else acc) a

/-- Fold of `if (v > acc) acc = v;` over a list, seeded with `a`. -/
def runMax (a : ℚ) (l : List ℚ) : ℚ :=
  l.foldl (fun acc v => if v > acc then v else acc) a

/-- Fold of `acc += v;` over a list, seeded with `a`. -/
def runSum (a : ℚ) (l : List ℚ) : ℚ :=
  l.foldl (fun acc v => acc + v) a

/-- The history-and-statistics section of `SensorTask_UpdateSensor`
(sensor_task.c lines 416-493), run after a successful read, given the extracted
`primary_value` and `secondary_value`.  The C `start_idx` is computed in `int`
arithmetic as `(history_head - history_count + SIZE) % SIZE`, which equals the
`Nat` expression used here whenever `history_count ≤ SENSOR_HISTORY_SIZE`
(an invariant of every reachable state). -/
def updateAnalytics (s : SensorInstance_t)
    (primary_value secondary_value : ℚ) : SensorInstance_t :=
  let hist := Function.update s.history s.history_head primary_value
  let shist :=
    if s.type = SENSOR_TYPE_SHT30 then
      Function.update s.secondary_history s.history_head secondary_value
    else s.secondary_history
  let head := (s.history_head + 1) % SENSOR_HISTORY_SIZE
  let count :=
    if s.history_count < SENSOR_HISTORY_SIZE then s.history_count + 1
    else s.history_count
  if count = 1 then
    { s with
        history := hist, secondary_history := shist,
        history_head := head, history_count := count,
        stats := { s.stats with
                   min := primary_value, max := primary_value,
                   avg := primary_value },
        secondary_stats :=
          if s.type = SENSOR_TYPE_SHT30 then
            { s.secondary_stats with
              min := secondary_value,
              max := secondary_value, avg := secondary_value }
          else s.secondary_stats }
  else
    let gmin := if primary_value < s.stats.min then primary_value
                else s.stats.min
    let gmax := if primary_value > s.stats.max then primary_value
                else s.stats.max
    let sstats1 :=
      if s.type = SENSOR_TYPE_SHT30 then
        { s.secondary_stats with
            min := if secondary_value < s.secondary_stats.min then
                     secondary_value
                   else s.secondary_stats.min,
            max := if secondary_value > s.secondary_stats.max then
                     secondary_value
                   else s.secondary_stats.max }
      else s.secondary_stats
    let start_idx := (head + SENSOR_HISTORY_SIZE - count) % SENSOR_HISTORY_SIZE
    let window := unroll hist start_idx count
    let p_sum := runSum 0 window
    let p_min := runMin (hist start_idx) window
    let p_max := runMax (hist start_idx) window
    let swindow := unroll shist start_idx count
    let s_sum := runSum 0 swindow
    let s_min := runMin (shist start_idx) swindow
    let s_max := runMax (shist start_idx) swindow
    { s with
        history := hist, secondary_history := shist,
        history_head := head, history_count := count,
        stats := { min := gmin, max := gmax, avg := p_sum / (count : ℚ),
                   local_min := p_min, local_max := p_max,
                   local_avg := p_sum / (count : ℚ) },
        secondary_stats :=
          if s.type = SENSOR_TYPE_SHT30 then
            { sstats1 with
              local_min := s_min, local_max := s_max,
              local_avg := s_sum / (count : ℚ), avg := s_sum / (count : ℚ) }
          else sstats1 }

/-- The first three assignments of the successful-read path of
`SensorTask_UpdateSensor` (lines 392-394): the reading written by the adapter's
`read_func` is stamped with the current tick and marked valid, and the error
counter is cleared. -/
def readStamp (s : SensorInstance_t) (written : SensorValues)
    (now : Nat) : SensorInstance_t :=
  { s with
      data := { values := written, timestamp := now % UINT32_MOD,
                is_valid := true },
      error_count := 0 }

/-- `SensorTask_UpdateSensor` (sensor_task.c lines 378-503), with the adapter's
`read_func` outcome supplied as an oracle: `read_ok` is its boolean result and
`written` the union contents it wrote into `instance->data.values` on success.
The returned `Bool` is the C return value. -/
def SensorTask_UpdateSensor (m : SensorManager_t) (i : Nat) (read_ok : Bool)
    (written : SensorValues) (now : Nat) : SensorManager_t × Bool :=
  let s := m.sensors i
  if SENSOR_TYPE_MAX ≤ s.type then (m, false)
  else if ((m.callbacks s.type).read_func).isSome then
    if read_ok then
      let s1 := readStamp s written now
      let pv := extractValues s1.type s1.data.values
      (m.setSensor i (updateAnalytics s1 pv.1 pv.2), true)
    else (m, false)
  else (m, false)

/-- `SensorTask_InitializeSensor` (sensor_task.c lines 361-373) with the
adapter's `init_func` outcome supplied as the oracle `init_ok`. -/
def SensorTask_InitializeSensor (m : SensorManager_t) (i : Nat)
    (init_ok : Bool) : Bool :=
  let s := m.sensors i
  if SENSOR_TYPE_MAX ≤ s.type then false
  else if ((m.callbacks s.type).init_func).isSome then init_ok
  else false

/-- `SensorTask_HandleSensorError` (sensor_task.c lines 660-677): increment the
error counter; at 5 errors mark the sensor for re-initialization; at 10 errors
disable it (running the adapter deinit), force the `ERROR` status and emit a
status-change event. -/
def SensorTask_HandleSensorError (m : SensorManager_t) (i : Nat)
    (cb : Bool) : OpResult :=
  let s := m.sensors i
  let ec := (s.error_count + 1) % UINT32_MOD
  let m1 := m.setSensor i { s with error_count := ec }
  let m2 :=
    if ec = 5 then
      m1.setSensor i { m1.sensors i with status := .initializing }
    else m1
  if ec = 10 then
    let d := SensorTask_DisableSensor m2 (m2.sensors i).type cb
    let m3 := d.manager.setSensor i
      { d.manager.sensors i with status := .error }
    ⟨m3, true,
      d.events ++
        SensorTask_NotifyEvent cb .status_change (m3.sensors i).type none
          .error,
      d.deinit_called⟩
  else ⟨m2, true, [], false⟩

/-- `uint32_t` subtraction `a - b`, as in `current_time - last_update_time`. -/
def u32sub (a b : Nat) : Nat :=
  (a % UINT32_MOD + UINT32_MOD - b % UINT32_MOD) % UINT32_MOD

/-- One iteration of the per-sensor body of `SensorTask_MainLoop`
(sensor_task.c lines 304-341) for slot `i`, with the adapter outcomes of this
cycle supplied as oracles and `now` standing for both `HAL_GetTick()` reads of
the iteration.  Returns the new manager state and the events handed to the
registered callback. -/
def SensorTask_CycleSensor (m : SensorManager_t) (i : Nat)
    (init_ok read_ok : Bool) (written : SensorValues) (now : Nat)
    (cb : Bool) : SensorManager_t × List SensorEvent_t :=
  let s := m.sensors i
  if ¬s.is_enabled then (m, [])
  else
    let step1 : SensorManager_t × List SensorEvent_t × Bool :=
      if s.status = .initializing then
        if SensorTask_InitializeSensor m i init_ok then
          (m.setSensor i
             { s with status := .online,
                      last_update_time := now % UINT32_MOD },
           SensorTask_NotifyEvent cb .status_change i none .online,
           true)
        else
          let h := SensorTask_HandleSensorError m i cb
          (h.manager, h.events, false)
      else (m, [], true)
    let m1 := step1.1
    let evs1 := step1.2.1
    if ¬step1.2.2 then (m1, evs1)
    else
      let s1 := m1.sensors i
      if s1.update_interval_ms ≤ u32sub now s1.last_update_time then
        let u := SensorTask_UpdateSensor m1 i read_ok written now
        if u.2 then
          let s2 := u.1.sensors i
          (u.1.setSensor i { s2 with last_update_time := now % UINT32_MOD },
           evs1 ++
             SensorTask_NotifyEvent cb .data_update i (some s2.data) s2.status)
        else
          let h := SensorTask_HandleSensorError u.1 i cb
          (h.manager, evs1 ++ h.events)
      else (m1, evs1)

/-- `SensorTask_GetPrimaryHistory` (sensor_task.c lines 570-606).  The count
and the chronologically ordered (oldest-first) snapshot written into the static
scratch buffer are returned; `none` models the `return 0` paths that write no
snapshot.  `history_null` models passing a NULL output pointer. -/
def SensorTask_GetPrimaryHistory (m : SensorManager_t) (type : Nat)
    (history_null : Bool) : Nat × Option (List ℚ) :=
  if ¬m.is_initialized ∨ SENSOR_TYPE_MAX ≤ type ∨ history_null then (0, none)
  else
    let s := m.sensors type
    if s.is_enabled ∧ 0 < s.history_count then
      let read_idx :=
        if s.history_count < SENSOR_HISTORY_SIZE then 0 else s.history_head
      (s.history_count, some (unroll s.history read_idx s.history_count))
    else (0, none)

/-- A sequence of successful reads for slot `i` delivered through
`SensorTask_UpdateSensor`, one per element of `vs` (timestamps are irrelevant
to the history and statistics and are fixed at 0). -/
def feedReads (m : SensorManager_t) (i : Nat)
    (vs : List SensorValues) : SensorManager_t :=
  vs.foldl (fun acc v => (SensorTask_UpdateSensor acc i true v 0).1) m

/-- The primary scalar the update step extracts for kind `k` from reading
`v`. -/
def primOf (k : Nat) (v : SensorValues) : ℚ := (extractValues k v).1

/-- The secondary scalar the update step extracts for kind `k` from reading
`v`. -/
def secOf (k : Nat) (v : SensorValues) : ℚ := (extractValues k v).2

/-- The slot index of the oldest sample in the circular buffer, as computed by
the statistics rescan (`(history_head - history_count + SIZE) % SIZE`). -/
def windowStart (s : SensorInstance_t) : Nat :=
  (s.history_head + SENSOR_HISTORY_SIZE - s.history_count) %
    SENSOR_HISTORY_SIZE

/-- The logical (oldest-first) contents of the primary history buffer. -/
def primWindow (s : SensorInstance_t) : List ℚ :=
  unroll s.history (windowStart s) s.history_count

/-- The logical (oldest-first) contents of the secondary history buffer. -/
def secWindow (s : SensorInstance_t) : List ℚ :=
  unroll s.secondary_history (windowStart s) s.history_count

/-! ### Generic facts about the fold and circular-buffer helpers -/

theorem SENSOR_HISTORY_SIZE_eq : SENSOR_HISTORY_SIZE = 20 := rfl

theorem runMin_cons (a v : ℚ) (l : List ℚ) :
    runMin a (v :: l) = runMin (if v < a then v else a) l := rfl

theorem runMin_le_seed (a : ℚ) (l : List ℚ) : runMin a l ≤ a := by
  induction l generalizing a with
  | nil => simp [runMin]
  | cons v t ih =>
    rw [runMin_cons]
    by_cases h : v < a
    · simpa only [if_pos h] using le_trans (ih v) (le_of_lt h)
    · simpa only [if_neg h] using ih a

theorem runMin_le_mem (a : ℚ) (l : List ℚ) : ∀ y ∈ l, runMin a l ≤ y := by
  induction l generalizing a with
  | nil => simp
  | cons v t ih =>
    intro y hy
    rw [runMin_cons]
    rcases List.mem_cons.mp hy with h | h
    · rw [h]
      refine le_trans (runMin_le_seed _ _) ?_
      by_cases hv : v < a
      · rw [if_pos hv]
      · rw [if_neg hv]
        exact le_of_not_lt hv
    · exact ih _ y h

theorem runMin_mem (a : ℚ) (l : List ℚ) : runMin a l = a ∨ runMin a l ∈ l := by
  induction l generalizing a with
  | nil => left; rfl
  | cons v t ih =>
    rw [runMin_cons]
    rcases ih (if v < a then v else a) with h | h
    · by_cases hv : v < a
      · right
        rw [h, if_pos hv]
        exact List.mem_cons_self _ _
      · left
        rw [h, if_neg hv]
    · right
      exact List.mem_cons_of_mem _ h

theorem runMax_cons (a v : ℚ) (l : List ℚ) :
    runMax a (v :: l) = runMax (if v > a then v else a) l := rfl

theorem runMax_seed_le (a : ℚ) (l : List ℚ) : a ≤ runMax a l := by
  induction l generalizing a with
  | nil => simp [runMax]
  | cons v t ih =>
    rw [runMax_cons]
    by_cases h : v > a
    · simpa only [if_pos h] using le_trans (le_of_lt h) (ih v)
    · simpa only [if_neg h] using ih a

theorem runMax_mem_le (a : ℚ) (l : List ℚ) : ∀ y ∈ l, y ≤ runMax a l := by
  induction l generalizing a with
  | nil => simp
  | cons v t ih =>
    intro y hy
    rw [runMax_cons]
    rcases List.mem_cons.mp hy with h | h
    · rw [h]
      refine le_trans ?_ (runMax_seed_le _ _)
      by_cases hv : v > a
      · rw [if_pos hv]
      · rw [if_neg hv]
        exact le_of_not_lt hv
    · exact ih _ y h

theorem runMax_mem (a : ℚ) (l : List ℚ) : runMax a l = a ∨ runMax a l ∈ l := by
  induction l generalizing a with
  | nil => left; rfl
  | cons v t ih =>
    rw [runMax_cons]
    rcases ih (if v > a then v else a) with h | h
    · by_cases hv : v > a
      · right
        rw [h, if_pos hv]
        exact List.mem_cons_self _ _
      · left
        rw [h, if_neg hv]
    · right
      exact List.mem_cons_of_mem _ h

theorem runSum_cons (a v : ℚ) (l : List ℚ) :
    runSum a (v :: l) = runSum (a + v) l := rfl

theorem runSum_eq (a : ℚ) (l : List ℚ) : runSum a l = a + l.sum := by
  induction l generalizing a with
  | nil => simp [runSum]
  | cons v t ih =>
    rw [runSum_cons, ih, List.sum_cons]
    ring

theorem unroll_length (h : Nat → ℚ) (start len : Nat) :
    (unroll h start len).length = len := by
  simp [unroll]

theorem unroll_zero (h : Nat → ℚ) (start : Nat) : unroll h start 0 = [] := by
  simp [unroll]

theorem unroll_head_mem (h : Nat → ℚ) (start len : Nat) (hl : 0 < len)
    (hs : start < SENSOR_HISTORY_SIZE) :
    h start ∈ unroll h start len := by
  have : h start = h ((start + 0) % SENSOR_HISTORY_SIZE) := by
    rw [SENSOR_HISTORY_SIZE_eq] at hs ⊢
    congr 1
    omega
  rw [this]
  simp only [unroll, List.mem_map]
  exact ⟨0, by simpa [List.mem_range] using hl, rfl⟩

theorem unroll_getElem (f : Nat → ℚ) (start len i : Nat)
    (hi : i < (unroll f start len).length) :
    (unroll f start len)[i] = f ((start + i) % SENSOR_HISTORY_SIZE) := by
  simp [unroll]

theorem unroll_update_not_full (h : Nat → ℚ) (n : Nat) (x : ℚ)
    (hn : n < SENSOR_HISTORY_SIZE) :
    unroll (Function.update h n x) 0 (n + 1) = unroll h 0 n ++ [x] := by
  rw [SENSOR_HISTORY_SIZE_eq] at hn
  apply List.ext_getElem
  · simp [unroll]
  · intro i h1 h2
    have hi : i < n + 1 := by simpa [unroll] using h1
    rw [unroll_getElem]
    by_cases hin : i < n
    · rw [List.getElem_append_left (by simpa [unroll] using hin)]
      rw [unroll_getElem]
      have e1 : (0 + i) % SENSOR_HISTORY_SIZE = i := by
        simp only [SENSOR_HISTORY_SIZE_eq]
        omega
      rw [e1, Function.update_noteq (by omega)]
    · have hien : i = n := by omega
      subst hien
      rw [List.getElem_append_right (by simp [unroll])]
      have e1 : (0 + i) % SENSOR_HISTORY_SIZE = i := by
        simp only [SENSOR_HISTORY_SIZE_eq]
        omega
      rw [e1, Function.update_same]
      simp [unroll]

theorem unroll_update_full (h : Nat → ℚ) (hd : Nat) (x : ℚ)
    (hh : hd < SENSOR_HISTORY_SIZE) :
    unroll (Function.update h hd x) ((hd + 1) % SENSOR_HISTORY_SIZE)
        SENSOR_HISTORY_SIZE =
      (unroll h hd SENSOR_HISTORY_SIZE).drop 1 ++ [x] := by
  rw [SENSOR_HISTORY_SIZE_eq] at hh
  apply List.ext_getElem
  · simp [unroll, SENSOR_HISTORY_SIZE_eq]
  · intro i h1 h2
    have hi : i < 20 := by simpa [unroll, SENSOR_HISTORY_SIZE_eq] using h1
    rw [unroll_getElem]
    by_cases hin : i < 19
    · rw [List.getElem_append_left
        (by simp [unroll, SENSOR_HISTORY_SIZE_eq]; omega)]
      rw [List.getElem_drop]
      rw [unroll_getElem]
      have e1 : ((hd + 1) % SENSOR_HISTORY_SIZE + i) % SENSOR_HISTORY_SIZE =
          (hd + (1 + i)) % SENSOR_HISTORY_SIZE := by
        simp only [SENSOR_HISTORY_SIZE_eq]
        omega
      rw [e1, Function.update_noteq (by simp only [SENSOR_HISTORY_SIZE_eq]; omega)]
    · have hien : i = 19 := by omega
      subst hien
      rw [List.getElem_append_right
        (by simp [unroll, SENSOR_HISTORY_SIZE_eq])]
      have e1 : ((hd + 1) % SENSOR_HISTORY_SIZE + 19) % SENSOR_HISTORY_SIZE =
          hd := by
        simp only [SENSOR_HISTORY_SIZE_eq]
        omega
      rw [e1, Function.update_same]
      simp [unroll, SENSOR_HISTORY_SIZE_eq]

/-! ### Projection facts about the embedded operations -/

theorem setSensor_sensors_self (m : SensorManager_t) (i : Nat)
    (s : SensorInstance_t) : (m.setSensor i s).sensors i = s := by
  simp [SensorManager_t.setSensor]

theorem setSensor_callbacks (m : SensorManager_t) (i : Nat)
    (s : SensorInstance_t) : (m.setSensor i s).callbacks = m.callbacks := rfl

theorem setSensor_is_initialized (m : SensorManager_t) (i : Nat)
    (s : SensorInstance_t) :
    (m.setSensor i s).is_initialized = m.is_initialized := rfl

theorem setSensor_active (m : SensorManager_t) (i : Nat)
    (s : SensorInstance_t) :
    (m.setSensor i s).active_sensor_count = m.active_sensor_count := rfl

theorem updateAnalytics_history (s : SensorInstance_t) (p sv : ℚ) :
    (updateAnalytics s p sv).history =
      Function.update s.history s.history_head p := by
  simp only [updateAnalytics]
  split <;> split <;> rfl

theorem updateAnalytics_secondary_history (s : SensorInstance_t) (p sv : ℚ) :
    (updateAnalytics s p sv).secondary_history =
      if s.type = SENSOR_TYPE_SHT30 then
        Function.update s.secondary_history s.history_head sv
      else s.secondary_history := by
  simp only [updateAnalytics]
  split <;> split <;> rfl

theorem updateAnalytics_history_head (s : SensorInstance_t) (p sv : ℚ) :
    (updateAnalytics s p sv).history_head =
      (s.history_head + 1) % SENSOR_HISTORY_SIZE := by
  simp only [updateAnalytics]
  split <;> split <;> rfl

theorem updateAnalytics_history_count (s : SensorInstance_t) (p sv : ℚ) :
    (updateAnalytics s p sv).history_count =
      if s.history_count < SENSOR_HISTORY_SIZE then s.history_count + 1
      else s.history_count := by
  simp only [updateAnalytics]
  split <;> split <;> rfl

theorem updateAnalytics_type (s : SensorInstance_t) (p sv : ℚ) :
    (updateAnalytics s p sv).type = s.type := by
  simp only [updateAnalytics]
  split <;> split <;> rfl

theorem updateAnalytics_is_enabled (s : SensorInstance_t) (p sv : ℚ) :
    (updateAnalytics s p sv).is_enabled = s.is_enabled := by
  simp only [updateAnalytics]
  split <;> split <;> rfl

theorem updateAnalytics_error_count (s : SensorInstance_t) (p sv : ℚ) :
    (updateAnalytics s p sv).error_count = s.error_count := by
  simp only [updateAnalytics]
  split <;> split <;> rfl

theorem updateAnalytics_status (s : SensorInstance_t) (p sv : ℚ) :
    (updateAnalytics s p sv).status = s.status := by
  simp only [updateAnalytics]
  split <;> split <;> rfl

theorem updateAnalytics_secondary_stats_of_ne (s : SensorInstance_t)
    (p sv : ℚ) (h : s.type ≠ SENSOR_TYPE_SHT30) :
    (updateAnalytics s p sv).secondary_stats = s.secondary_stats := by
  simp only [updateAnalytics]
  split <;> split <;> simp [if_neg h]

theorem updateAnalytics_stats_seed (s : SensorInstance_t) (p sv : ℚ)
    (h : (if s.history_count < SENSOR_HISTORY_SIZE then s.history_count + 1
          else s.history_count) = 1) :
    (updateAnalytics s p sv).stats =
      { s.stats with min := p, max := p, avg := p } := by
  simp only [updateAnalytics]
  rw [if_pos h]

theorem updateAnalytics_secondary_stats_seed (s : SensorInstance_t) (p sv : ℚ)
    (h : (if s.history_count < SENSOR_HISTORY_SIZE then s.history_count + 1
          else s.history_count) = 1)
    (h2 : s.type = SENSOR_TYPE_SHT30) :
    (updateAnalytics s p sv).secondary_stats =
      { s.secondary_stats with min := sv, max := sv, avg := sv } := by
  simp only [updateAnalytics]
  rw [if_pos h]
  simp [if_pos h2]

theorem updateAnalytics_stats_rescan (s : SensorInstance_t) (p sv : ℚ)
    (h : (if s.history_count < SENSOR_HISTORY_SIZE then s.history_count + 1
          else s.history_count) ≠ 1) :
    (updateAnalytics s p sv).stats =
      { min := if p < s.stats.min then p else s.stats.min,
        max := if p > s.stats.max then p else s.stats.max,
        avg := runSum 0 (primWindow (updateAnalytics s p sv)) /
          ((updateAnalytics s p sv).history_count : ℚ),
        local_min :=
          runMin ((updateAnalytics s p sv).history
              (windowStart (updateAnalytics s p sv)))
            (primWindow (updateAnalytics s p sv)),
        local_max :=
          runMax ((updateAnalytics s p sv).history
              (windowStart (updateAnalytics s p sv)))
            (primWindow (updateAnalytics s p sv)),
        local_avg := runSum 0 (primWindow (updateAnalytics s p sv)) /
          ((updateAnalytics s p sv).history_count : ℚ) } := by
  conv_lhs => simp only [updateAnalytics]
  rw [if_neg h]
  simp only [primWindow, windowStart, updateAnalytics_history,
    updateAnalytics_history_head, updateAnalytics_history_count]

theorem updateAnalytics_secondary_stats_rescan (s : SensorInstance_t)
    (p sv : ℚ)
    (h : (if s.history_count < SENSOR_HISTORY_SIZE then s.history_count + 1
          else s.history_count) ≠ 1)
    (h2 : s.type = SENSOR_TYPE_SHT30) :
    (updateAnalytics s p sv).secondary_stats =
      { min := if sv < s.secondary_stats.min then sv
               else s.secondary_stats.min,
        max := if sv > s.secondary_stats.max then sv
               else s.secondary_stats.max,
        avg := runSum 0 (secWindow (updateAnalytics s p sv)) /
          ((updateAnalytics s p sv).history_count : ℚ),
        local_min :=
          runMin ((updateAnalytics s p sv).secondary_history
              (windowStart (updateAnalytics s p sv)))
            (secWindow (updateAnalytics s p sv)),
        local_max :=
          runMax ((updateAnalytics s p sv).secondary_history
              (windowStart (updateAnalytics s p sv)))
            (secWindow (updateAnalytics s p sv)),
        local_avg := runSum 0 (secWindow (updateAnalytics s p sv)) /
          ((updateAnalytics s p sv).history_count : ℚ) } := by
  conv_lhs => simp only [updateAnalytics]
  rw [if_neg h]
  simp only [secWindow, windowStart, updateAnalytics_secondary_history,
    updateAnalytics_history_head, updateAnalytics_history_count]
  simp [if_pos h2]

theorem readStamp_type (s : SensorInstance_t) (w : SensorValues) (n : Nat) :
    (readStamp s w n).type = s.type := rfl

theorem readStamp_is_enabled (s : SensorInstance_t) (w : SensorValues)
    (n : Nat) : (readStamp s w n).is_enabled = s.is_enabled := rfl

theorem readStamp_status (s : SensorInstance_t) (w : SensorValues) (n : Nat) :
    (readStamp s w n).status = s.status := rfl

theorem readStamp_error_count (s : SensorInstance_t) (w : SensorValues)
    (n : Nat) : (readStamp s w n).error_count = 0 := rfl

theorem readStamp_history (s : SensorInstance_t) (w : SensorValues)
    (n : Nat) : (readStamp s w n).history = s.history := rfl

theorem readStamp_secondary_history (s : SensorInstance_t) (w : SensorValues)
    (n : Nat) : (readStamp s w n).secondary_history = s.secondary_history :=
  rfl

theorem readStamp_history_head (s : SensorInstance_t) (w : SensorValues)
    (n : Nat) : (readStamp s w n).history_head = s.history_head := rfl

theorem readStamp_history_count (s : SensorInstance_t) (w : SensorValues)
    (n : Nat) : (readStamp s w n).history_count = s.history_count := rfl

theorem readStamp_stats (s : SensorInstance_t) (w : SensorValues) (n : Nat) :
    (readStamp s w n).stats = s.stats := rfl

theorem readStamp_secondary_stats (s : SensorInstance_t) (w : SensorValues)
    (n : Nat) : (readStamp s w n).secondary_stats = s.secondary_stats := rfl

theorem readStamp_data_values (s : SensorInstance_t) (w : SensorValues)
    (n : Nat) : (readStamp s w n).data.values = w := rfl

theorem SensorTask_UpdateSensor_success (m : SensorManager_t) (i : Nat)
    (written : SensorValues) (now : Nat)
    (h4 : (m.sensors i).type < SENSOR_TYPE_MAX)
    (hr : ((m.callbacks (m.sensors i).type).read_func).isSome = true) :
    SensorTask_UpdateSensor m i true written now =
      (m.setSensor i
        (updateAnalytics (readStamp (m.sensors i) written now)
          (extractValues (m.sensors i).type written).1
          (extractValues (m.sensors i).type written).2),
       true) := by
  simp only [SensorTask_UpdateSensor]
  rw [if_neg (not_le.mpr h4), if_pos hr]
  simp [readStamp_type, readStamp_data_values]

/-! ### Behaviour of the circular buffer across a sequence of reads -/

theorem feedReads_nil (m : SensorManager_t) (i : Nat) :
    feedReads m i [] = m := rfl

theorem feedReads_append (m : SensorManager_t) (i : Nat)
    (ws : List SensorValues) (v : SensorValues) :
    feedReads m i (ws ++ [v]) =
      (SensorTask_UpdateSensor (feedReads m i ws) i true v 0).1 := by
  simp [feedReads, List.foldl_append]

theorem count_step (n : Nat) :
    (if min n SENSOR_HISTORY_SIZE < SENSOR_HISTORY_SIZE then
        min n SENSOR_HISTORY_SIZE + 1
      else min n SENSOR_HISTORY_SIZE) =
      min (n + 1) SENSOR_HISTORY_SIZE := by
  simp only [SENSOR_HISTORY_SIZE_eq]
  split <;> omega

/-- One write into the circular buffer advances the logical (oldest-first)
window by appending the new sample and, once the buffer is full, dropping the
overwritten oldest sample.  `xs` is the whole sample sequence so far, `n` its
length. -/
theorem window_push (hist : Nat → ℚ) (hd cnt n : Nat) (x : ℚ) (xs : List ℚ)
    (hlen : xs.length = n)
    (hhd : hd = n % SENSOR_HISTORY_SIZE)
    (hcnt : cnt = min n SENSOR_HISTORY_SIZE)
    (hinv : unroll hist
        ((hd + SENSOR_HISTORY_SIZE - cnt) % SENSOR_HISTORY_SIZE) cnt =
      xs.drop (n - SENSOR_HISTORY_SIZE)) :
    unroll (Function.update hist hd x)
        (((hd + 1) % SENSOR_HISTORY_SIZE + SENSOR_HISTORY_SIZE -
            (if cnt < SENSOR_HISTORY_SIZE then cnt + 1 else cnt)) %
          SENSOR_HISTORY_SIZE)
        (if cnt < SENSOR_HISTORY_SIZE then cnt + 1 else cnt) =
      (xs ++ [x]).drop (n + 1 - SENSOR_HISTORY_SIZE) := by
  rcases Nat.lt_or_ge n SENSOR_HISTORY_SIZE with hn | hn
  · -- buffer not yet full before this write
    have hd_eq : hd = n := by
      rw [hhd]
      simp only [SENSOR_HISTORY_SIZE_eq] at hn ⊢
      omega
    have cnt_eq : cnt = n := by
      rw [hcnt]
      simp only [SENSOR_HISTORY_SIZE_eq] at hn ⊢
      omega
    rw [hd_eq]
    rw [hd_eq] at hinv
    have hlt : cnt < SENSOR_HISTORY_SIZE := by omega
    rw [if_pos hlt]
    have e1 : ((n + 1) % SENSOR_HISTORY_SIZE + SENSOR_HISTORY_SIZE -
        (cnt + 1)) % SENSOR_HISTORY_SIZE = 0 := by
      simp only [SENSOR_HISTORY_SIZE_eq] at hn ⊢
      omega
    rw [e1, cnt_eq]
    have e2 : (n + SENSOR_HISTORY_SIZE - cnt) % SENSOR_HISTORY_SIZE = 0 := by
      simp only [SENSOR_HISTORY_SIZE_eq] at hn ⊢
      omega
    rw [e2, cnt_eq] at hinv
    have e3 : n - SENSOR_HISTORY_SIZE = 0 := by
      simp only [SENSOR_HISTORY_SIZE_eq] at hn ⊢
      omega
    rw [e3, List.drop_zero] at hinv
    have e4 : n + 1 - SENSOR_HISTORY_SIZE = 0 := by
      simp only [SENSOR_HISTORY_SIZE_eq] at hn ⊢
      omega
    rw [e4, List.drop_zero, unroll_update_not_full hist n x hn, hinv]
  · -- buffer already full: the oldest sample is overwritten
    have cnt_eq : cnt = SENSOR_HISTORY_SIZE := by
      rw [hcnt]
      simp only [SENSOR_HISTORY_SIZE_eq] at hn ⊢
      omega
    have hd_lt : hd < SENSOR_HISTORY_SIZE := by
      rw [hhd]
      simp only [SENSOR_HISTORY_SIZE_eq]
      omega
    rw [if_neg (by omega)]
    have e1 : ((hd + 1) % SENSOR_HISTORY_SIZE + SENSOR_HISTORY_SIZE - cnt) %
        SENSOR_HISTORY_SIZE = (hd + 1) % SENSOR_HISTORY_SIZE := by
      rw [cnt_eq]
      simp only [SENSOR_HISTORY_SIZE_eq]
      omega
    rw [e1, cnt_eq]
    have e2 : (hd + SENSOR_HISTORY_SIZE - cnt) % SENSOR_HISTORY_SIZE = hd := by
      rw [cnt_eq]
      simp only [SENSOR_HISTORY_SIZE_eq] at hd_lt ⊢
      omega
    rw [e2, cnt_eq] at hinv
    rw [unroll_update_full hist hd x hd_lt, hinv]
    rw [List.drop_drop]
    have e3 : n - SENSOR_HISTORY_SIZE + 1 = n + 1 - SENSOR_HISTORY_SIZE := by
      simp only [SENSOR_HISTORY_SIZE_eq] at hn ⊢
      omega
    rw [e3]
    rw [List.drop_append_of_le_length (by
      simp only [SENSOR_HISTORY_SIZE_eq] at hn ⊢
      omega)]

/-- Invariant of the analytics state after feeding any sequence of successful
reads to a registered slot that starts with an empty history: the head and
count follow the length of the sequence, and both logical windows hold exactly
the last `SENSOR_HISTORY_SIZE` extracted samples, oldest first. -/
theorem feedReads_spec (m : SensorManager_t) (k : Nat) (vs : List SensorValues)
    (hk : k < SENSOR_TYPE_MAX) (ht : (m.sensors k).type = k)
    (hr : ((m.callbacks k).read_func).isSome = true)
    (hc0 : (m.sensors k).history_count = 0)
    (hh0 : (m.sensors k).history_head = 0) :
    ((feedReads m k vs).sensors k).type = k ∧
    ((feedReads m k vs).sensors k).is_enabled = (m.sensors k).is_enabled ∧
    (feedReads m k vs).callbacks = m.callbacks ∧
    (feedReads m k vs).is_initialized = m.is_initialized ∧
    ((feedReads m k vs).sensors k).history_head =
      vs.length % SENSOR_HISTORY_SIZE ∧
    ((feedReads m k vs).sensors k).history_count =
      min vs.length SENSOR_HISTORY_SIZE ∧
    primWindow ((feedReads m k vs).sensors k) =
      (vs.map (primOf k)).drop (vs.length - SENSOR_HISTORY_SIZE) ∧
    (k = SENSOR_TYPE_SHT30 →
      secWindow ((feedReads m k vs).sensors k) =
        (vs.map (secOf k)).drop (vs.length - SENSOR_HISTORY_SIZE)) ∧
    (k ≠ SENSOR_TYPE_SHT30 →
      ((feedReads m k vs).sensors k).secondary_stats =
        (m.sensors k).secondary_stats) := by
  induction vs using List.reverseRecOn with
  | nil =>
    refine ⟨ht, rfl, rfl, rfl, by simp [feedReads, hh0],
      by simp [feedReads, hc0], ?_, ?_, fun _ => rfl⟩
    · simp [feedReads, primWindow, hc0, unroll_zero]
    · intro _
      simp [feedReads, secWindow, hc0, unroll_zero]
  | append_singleton ws v ih =>
    obtain ⟨ihT, ihE, ihC, ihI, ihH, ihN, ihP, ihS, ihQ⟩ := ih
    have h4 : ((feedReads m k ws).sensors k).type < SENSOR_TYPE_MAX := by
      rw [ihT]
      exact hk
    have hr2 : (((feedReads m k ws).callbacks
        ((feedReads m k ws).sensors k).type).read_func).isSome = true := by
      rw [ihT, ihC]
      exact hr
    have hu := SensorTask_UpdateSensor_success (feedReads m k ws) k v 0 h4 hr2
    have hms : feedReads m k (ws ++ [v]) =
        (feedReads m k ws).setSensor k
          (updateAnalytics (readStamp ((feedReads m k ws).sensors k) v 0)
            (extractValues ((feedReads m k ws).sensors k).type v).1
            (extractValues ((feedReads m k ws).sensors k).type v).2) := by
      rw [feedReads_append, hu]
    rw [ihT] at hms
    have hslot : (feedReads m k (ws ++ [v])).sensors k =
        updateAnalytics (readStamp ((feedReads m k ws).sensors k) v 0)
          (extractValues k v).1 (extractValues k v).2 := by
      rw [hms, setSensor_sensors_self]
    have hT2 : ((feedReads m k (ws ++ [v])).sensors k).type = k := by
      rw [hslot, updateAnalytics_type, readStamp_type]
      exact ihT
    have hE2 : ((feedReads m k (ws ++ [v])).sensors k).is_enabled =
        (m.sensors k).is_enabled := by
      rw [hslot, updateAnalytics_is_enabled, readStamp_is_enabled]
      exact ihE
    have hC2 : (feedReads m k (ws ++ [v])).callbacks = m.callbacks := by
      rw [hms, setSensor_callbacks]
      exact ihC
    have hI2 : (feedReads m k (ws ++ [v])).is_initialized =
        m.is_initialized := by
      rw [hms, setSensor_is_initialized]
      exact ihI
    have hH2 : ((feedReads m k (ws ++ [v])).sensors k).history_head =
        (ws ++ [v]).length % SENSOR_HISTORY_SIZE := by
      rw [hslot, updateAnalytics_history_head, readStamp_history_head, ihH]
      simp only [List.length_append, List.length_singleton,
        SENSOR_HISTORY_SIZE_eq]
      omega
    have hN2 : ((feedReads m k (ws ++ [v])).sensors k).history_count =
        min (ws ++ [v]).length SENSOR_HISTORY_SIZE := by
      rw [hslot, updateAnalytics_history_count, readStamp_history_count, ihN,
        count_step]
      simp
    have hP2 : primWindow ((feedReads m k (ws ++ [v])).sensors k) =
        ((ws ++ [v]).map (primOf k)).drop
          ((ws ++ [v]).length - SENSOR_HISTORY_SIZE) := by
      simp only [primWindow, windowStart, hslot, updateAnalytics_history,
        updateAnalytics_history_head, updateAnalytics_history_count,
        readStamp_history, readStamp_history_head, readStamp_history_count]
      rw [List.map_append, List.length_append]
      exact window_push ((feedReads m k ws).sensors k).history
        ((feedReads m k ws).sensors k).history_head
        ((feedReads m k ws).sensors k).history_count
        ws.length (primOf k v) (ws.map (primOf k)) (by simp) ihH ihN ihP
    have hS2 : k = SENSOR_TYPE_SHT30 →
        secWindow ((feedReads m k (ws ++ [v])).sensors k) =
          ((ws ++ [v]).map (secOf k)).drop
            ((ws ++ [v]).length - SENSOR_HISTORY_SIZE) := by
      intro hk2
      simp only [secWindow, windowStart, hslot,
        updateAnalytics_secondary_history, updateAnalytics_history_head,
        updateAnalytics_history_count, readStamp_secondary_history,
        readStamp_history_head, readStamp_history_count, readStamp_type]
      rw [if_pos (by rw [ihT]; exact hk2)]
      rw [List.map_append, List.length_append]
      exact window_push ((feedReads m k ws).sensors k).secondary_history
        ((feedReads m k ws).sensors k).history_head
        ((feedReads m k ws).sensors k).history_count
        ws.length (secOf k v) (ws.map (secOf k)) (by simp) ihH ihN (ihS hk2)
    have hQ2 : k ≠ SENSOR_TYPE_SHT30 →
        ((feedReads m k (ws ++ [v])).sensors k).secondary_stats =
          (m.sensors k).secondary_stats := by
      intro hne
      rw [hslot, updateAnalytics_secondary_stats_of_ne _ _ _
        (by rw [readStamp_type, ihT]; exact hne), readStamp_secondary_stats]
      exact ihQ hne
    exact ⟨hT2, hE2, hC2, hI2, hH2, hN2, hP2, hS2, hQ2⟩

/-! ### Concrete fixtures used by witnesses and counterexamples -/

/-- A concrete adapter callback set with all of init, read and deinit
present. -/
def testCallbacks : SensorCallbacks_t := ⟨some 1, some 2, some 3, none⟩

/-- A concrete registry state as reached after `SensorTask_Init` followed by
registering a GY30 and an SHT30 adapter and their initial `init` successes:
both slots enabled and online with the default 2000 ms interval. -/
def testManager : SensorManager_t where
  sensors := fun i =>
    if i = SENSOR_TYPE_GY30 then
      { zeroInstance with
          type := SENSOR_TYPE_GY30, is_enabled := true, status := .online,
          update_interval_ms := 2000 }
    else if i = SENSOR_TYPE_SHT30 then
      { zeroInstance with
          type := SENSOR_TYPE_SHT30, is_enabled := true, status := .online,
          update_interval_ms := 2000 }
    else { zeroInstance with type := i }
  callbacks := fun i =>
    if i = SENSOR_TYPE_GY30 ∨ i = SENSOR_TYPE_SHT30 then testCallbacks
    else zeroCallbacks
  is_initialized := true
  active_sensor_count := 2

/-! ### The claims -/

/-- C3: for a registered, enabled kind whose history starts empty, feeding `n`
successful reads makes `GetPrimaryHistory` return count `min n H` and the
oldest-first snapshot of the last `min n H` primary values
(`(vs.map (primOf k)).drop (vs.length - H)` is the whole fed sequence when
`n ≤ H`, and exactly the most recent `H` values when `n > H`). -/
theorem claim_C3_get_primary_history (m : SensorManager_t) (k : Nat)
    (vs : List SensorValues)
    (hk : k < SENSOR_TYPE_MAX)
    (hinit : m.is_initialized = true)
    (ht : (m.sensors k).type = k)
    (hr : ((m.callbacks k).read_func).isSome = true)
    (he : (m.sensors k).is_enabled = true)
    (hc0 : (m.sensors k).history_count = 0)
    (hh0 : (m.sensors k).history_head = 0)
    (hne : vs ≠ []) :
    SensorTask_GetPrimaryHistory (feedReads m k vs) k false =
      (min vs.length SENSOR_HISTORY_SIZE,
       some ((vs.map (primOf k)).drop
         (vs.length - SENSOR_HISTORY_SIZE))) := by
  obtain ⟨iT, iE, iC, iI, iH, iN, iP, -, -⟩ :=
    feedReads_spec m k vs hk ht hr hc0 hh0
  have hidx : (if ((feedReads m k vs).sensors k).history_count <
        SENSOR_HISTORY_SIZE then 0
      else ((feedReads m k vs).sensors k).history_head) =
      windowStart ((feedReads m k vs).sensors k) := by
    rw [windowStart, iH, iN]
    simp only [SENSOR_HISTORY_SIZE_eq]
    split <;> omega
  have hwin : unroll ((feedReads m k vs).sensors k).history
      (if ((feedReads m k vs).sensors k).history_count < SENSOR_HISTORY_SIZE
       then 0 else ((feedReads m k vs).sensors k).history_head)
      ((feedReads m k vs).sensors k).history_count =
      (vs.map (primOf k)).drop (vs.length - SENSOR_HISTORY_SIZE) := by
    rw [hidx]
    exact iP
  have hg : ¬(¬(feedReads m k vs).is_initialized ∨
      SENSOR_TYPE_MAX ≤ k ∨ (false : Bool)) := by
    rw [iI, hinit]
    simp only [SENSOR_TYPE_MAX] at *
    intro h
    rcases h with h | h | h
    · simp at h
    · omega
    · exact Bool.false_ne_true h
  have hpos : 0 < ((feedReads m k vs).sensors k).history_count := by
    rw [iN]
    have := List.length_pos.mpr hne
    simp only [SENSOR_HISTORY_SIZE_eq]
    omega
  have hen : ((feedReads m k vs).sensors k).is_enabled = true := by
    rw [iE]
    exact he
  simp only [SensorTask_GetPrimaryHistory]
  rw [if_neg hg, if_pos (by exact ⟨hen, hpos⟩), hwin, iN]

/-- Witness for C3 at a concrete input: two reads on the GY30 slot of
`testManager`. -/
theorem claim_C3_witness :
    ([SensorValues.gy30 10, SensorValues.gy30 20] ≠
      ([] : List SensorValues)) ∧
    SensorTask_GetPrimaryHistory
        (feedReads testManager SENSOR_TYPE_GY30
          [SensorValues.gy30 10, SensorValues.gy30 20])
        SENSOR_TYPE_GY30 false =
      (min [SensorValues.gy30 10, SensorValues.gy30 20].length
        SENSOR_HISTORY_SIZE,
       some (([SensorValues.gy30 10, SensorValues.gy30 20].map
           (primOf SENSOR_TYPE_GY30)).drop
         ([SensorValues.gy30 10, SensorValues.gy30 20].length -
           SENSOR_HISTORY_SIZE))) :=
  ⟨by decide,
   claim_C3_get_primary_history testManager SENSOR_TYPE_GY30
     [SensorValues.gy30 10, SensorValues.gy30 20] (by decide) (by decide)
     (by decide) (by decide) (by decide) (by decide) (by decide) (by decide)⟩

/-! ### The statistics written by the final read of a sequence -/

theorem feedReads_snoc_slot (m : SensorManager_t) (k : Nat)
    (ws : List SensorValues) (v : SensorValues)
    (hk : k < SENSOR_TYPE_MAX) (ht : (m.sensors k).type = k)
    (hr : ((m.callbacks k).read_func).isSome = true)
    (hc0 : (m.sensors k).history_count = 0)
    (hh0 : (m.sensors k).history_head = 0) :
    (feedReads m k (ws ++ [v])).sensors k =
      updateAnalytics (readStamp ((feedReads m k ws).sensors k) v 0)
        (extractValues k v).1 (extractValues k v).2 := by
  obtain ⟨ihT, -, ihC, -, -, -, -, -, -⟩ := feedReads_spec m k ws hk ht hr hc0 hh0
  have h4 : ((feedReads m k ws).sensors k).type < SENSOR_TYPE_MAX := by
    rw [ihT]
    exact hk
  have hr2 : (((feedReads m k ws).callbacks
      ((feedReads m k ws).sensors k).type).read_func).isSome = true := by
    rw [ihT, ihC]
    exact hr
  have hu := SensorTask_UpdateSensor_success (feedReads m k ws) k v 0 h4 hr2
  rw [ihT] at hu
  rw [feedReads_append, hu, setSensor_sensors_self]

theorem feedReads_snoc_count_ne_one (m : SensorManager_t) (k : Nat)
    (ws : List SensorValues) (v : SensorValues)
    (hk : k < SENSOR_TYPE_MAX) (ht : (m.sensors k).type = k)
    (hr : ((m.callbacks k).read_func).isSome = true)
    (hc0 : (m.sensors k).history_count = 0)
    (hh0 : (m.sensors k).history_head = 0)
    (hws : ws ≠ []) :
    (if (readStamp ((feedReads m k ws).sensors k) v 0).history_count <
        SENSOR_HISTORY_SIZE then
      (readStamp ((feedReads m k ws).sensors k) v 0).history_count + 1
     else (readStamp ((feedReads m k ws).sensors k) v 0).history_count) ≠
      1 := by
  obtain ⟨-, -, -, -, -, ihN, -, -, -⟩ := feedReads_spec m k ws hk ht hr hc0 hh0
  rw [readStamp_history_count, ihN]
  have := List.length_pos.mpr hws
  simp only [SENSOR_HISTORY_SIZE_eq]
  split <;> omega

/-- The primary statistics record written by the last read of a sequence of at
least two reads: lifetime min/max by comparison against the previous record,
and the windowed fields from the rescan of the final window. -/
theorem feedReads_snoc_stats (m : SensorManager_t) (k : Nat)
    (ws : List SensorValues) (v : SensorValues)
    (hk : k < SENSOR_TYPE_MAX) (ht : (m.sensors k).type = k)
    (hr : ((m.callbacks k).read_func).isSome = true)
    (hc0 : (m.sensors k).history_count = 0)
    (hh0 : (m.sensors k).history_head = 0)
    (hws : ws ≠ []) :
    ((feedReads m k (ws ++ [v])).sensors k).stats =
      { min := if primOf k v < ((feedReads m k ws).sensors k).stats.min then
                 primOf k v
               else ((feedReads m k ws).sensors k).stats.min,
        max := if primOf k v > ((feedReads m k ws).sensors k).stats.max then
                 primOf k v
               else ((feedReads m k ws).sensors k).stats.max,
        avg := runSum 0 (primWindow ((feedReads m k (ws ++ [v])).sensors k)) /
          (((feedReads m k (ws ++ [v])).sensors k).history_count : ℚ),
        local_min := runMin
          (((feedReads m k (ws ++ [v])).sensors k).history
            (windowStart ((feedReads m k (ws ++ [v])).sensors k)))
          (primWindow ((feedReads m k (ws ++ [v])).sensors k)),
        local_max := runMax
          (((feedReads m k (ws ++ [v])).sensors k).history
            (windowStart ((feedReads m k (ws ++ [v])).sensors k)))
          (primWindow ((feedReads m k (ws ++ [v])).sensors k)),
        local_avg :=
          runSum 0 (primWindow ((feedReads m k (ws ++ [v])).sensors k)) /
            (((feedReads m k (ws ++ [v])).sensors k).history_count : ℚ) } := by
  have hslot := feedReads_snoc_slot m k ws v hk ht hr hc0 hh0
  have hne := feedReads_snoc_count_ne_one m k ws v hk ht hr hc0 hh0 hws
  rw [hslot, updateAnalytics_stats_rescan _ _ _ hne, ← hslot,
    readStamp_stats]
  rfl

/-- The secondary statistics record written by the last read of a sequence of
at least two reads on the SHT30 slot. -/
theorem feedReads_snoc_secondary_stats (m : SensorManager_t) (k : Nat)
    (ws : List SensorValues) (v : SensorValues)
    (hk : k < SENSOR_TYPE_MAX) (ht : (m.sensors k).type = k)
    (hr : ((m.callbacks k).read_func).isSome = true)
    (hc0 : (m.sensors k).history_count = 0)
    (hh0 : (m.sensors k).history_head = 0)
    (hws : ws ≠ []) (hk2 : k = SENSOR_TYPE_SHT30) :
    ((feedReads m k (ws ++ [v])).sensors k).secondary_stats =
      { min := if secOf k v <
            ((feedReads m k ws).sensors k).secondary_stats.min then
          secOf k v
        else ((feedReads m k ws).sensors k).secondary_stats.min,
        max := if secOf k v >
            ((feedReads m k ws).sensors k).secondary_stats.max then
          secOf k v
        else ((feedReads m k ws).sensors k).secondary_stats.max,
        avg := runSum 0 (secWindow ((feedReads m k (ws ++ [v])).sensors k)) /
          (((feedReads m k (ws ++ [v])).sensors k).history_count : ℚ),
        local_min := runMin
          (((feedReads m k (ws ++ [v])).sensors k).secondary_history
            (windowStart ((feedReads m k (ws ++ [v])).sensors k)))
          (secWindow ((feedReads m k (ws ++ [v])).sensors k)),
        local_max := runMax
          (((feedReads m k (ws ++ [v])).sensors k).secondary_history
            (windowStart ((feedReads m k (ws ++ [v])).sensors k)))
          (secWindow ((feedReads m k (ws ++ [v])).sensors k)),
        local_avg :=
          runSum 0 (secWindow ((feedReads m k (ws ++ [v])).sensors k)) /
            (((feedReads m k (ws ++ [v])).sensors k).history_count : ℚ) } := by
  obtain ⟨ihT, -, -, -, -, -, -, -, -⟩ := feedReads_spec m k ws hk ht hr hc0 hh0
  have hslot := feedReads_snoc_slot m k ws v hk ht hr hc0 hh0
  have hne := feedReads_snoc_count_ne_one m k ws v hk ht hr hc0 hh0 hws
  have htype : (readStamp ((feedReads m k ws).sensors k) v 0).type =
      SENSOR_TYPE_SHT30 := by
    rw [readStamp_type, ihT]
    exact hk2
  rw [hslot, updateAnalytics_secondary_stats_rescan _ _ _ hne htype, ← hslot,
    readStamp_secondary_stats]
  rfl

/-- C4 (amended): for a fresh registered kind, after the very first sample only
the lifetime `min`/`max`/`avg` are seeded to that sample, while the windowed
`local_min`/`local_max`/`local_avg` are left unchanged; from the second sample
onward the windowed statistics equal the true minimum, true maximum and
arithmetic mean of the current history-buffer contents (for the SHT30 slot,
equally for the secondary channel). -/
theorem claim_C4_windowed_stats (m : SensorManager_t) (k : Nat)
    (vs : List SensorValues)
    (hk : k < SENSOR_TYPE_MAX) (ht : (m.sensors k).type = k)
    (hr : ((m.callbacks k).read_func).isSome = true)
    (hc0 : (m.sensors k).history_count = 0)
    (hh0 : (m.sensors k).history_head = 0) :
    (∀ v : SensorValues,
      ((feedReads m k [v]).sensors k).stats.min = primOf k v ∧
      ((feedReads m k [v]).sensors k).stats.max = primOf k v ∧
      ((feedReads m k [v]).sensors k).stats.avg = primOf k v ∧
      ((feedReads m k [v]).sensors k).stats.local_min =
        (m.sensors k).stats.local_min ∧
      ((feedReads m k [v]).sensors k).stats.local_max =
        (m.sensors k).stats.local_max ∧
      ((feedReads m k [v]).sensors k).stats.local_avg =
        (m.sensors k).stats.local_avg) ∧
    (2 ≤ vs.length →
      (((feedReads m k vs).sensors k).stats.local_min ∈
          (vs.map (primOf k)).drop (vs.length - SENSOR_HISTORY_SIZE) ∧
        (∀ y ∈ (vs.map (primOf k)).drop (vs.length - SENSOR_HISTORY_SIZE),
          ((feedReads m k vs).sensors k).stats.local_min ≤ y) ∧
        ((feedReads m k vs).sensors k).stats.local_max ∈
          (vs.map (primOf k)).drop (vs.length - SENSOR_HISTORY_SIZE) ∧
        (∀ y ∈ (vs.map (primOf k)).drop (vs.length - SENSOR_HISTORY_SIZE),
          y ≤ ((feedReads m k vs).sensors k).stats.local_max) ∧
        ((feedReads m k vs).sensors k).stats.local_avg =
          ((vs.map (primOf k)).drop (vs.length - SENSOR_HISTORY_SIZE)).sum /
            ((((vs.map (primOf k)).drop
                (vs.length - SENSOR_HISTORY_SIZE)).length : ℚ))) ∧
      (k = SENSOR_TYPE_SHT30 →
        ((feedReads m k vs).sensors k).secondary_stats.local_min ∈
          (vs.map (secOf k)).drop (vs.length - SENSOR_HISTORY_SIZE) ∧
        (∀ y ∈ (vs.map (secOf k)).drop (vs.length - SENSOR_HISTORY_SIZE),
          ((feedReads m k vs).sensors k).secondary_stats.local_min ≤ y) ∧
        ((feedReads m k vs).sensors k).secondary_stats.local_max ∈
          (vs.map (secOf k)).drop (vs.length - SENSOR_HISTORY_SIZE) ∧
        (∀ y ∈ (vs.map (secOf k)).drop (vs.length - SENSOR_HISTORY_SIZE),
          y ≤ ((feedReads m k vs).sensors k).secondary_stats.local_max) ∧
        ((feedReads m k vs).sensors k).secondary_stats.local_avg =
          ((vs.map (secOf k)).drop (vs.length - SENSOR_HISTORY_SIZE)).sum /
            ((((vs.map (secOf k)).drop
                (vs.length - SENSOR_HISTORY_SIZE)).length : ℚ)))) := by
  constructor
  · -- first sample: only the lifetime record is seeded
    intro v
    have hslot := feedReads_snoc_slot m k [] v hk ht hr hc0 hh0
    rw [List.nil_append] at hslot
    have hone : (if (readStamp ((feedReads m k []).sensors k) v 0).history_count
        < SENSOR_HISTORY_SIZE then
        (readStamp ((feedReads m k []).sensors k) v 0).history_count + 1
      else (readStamp ((feedReads m k []).sensors k) v 0).history_count) =
        1 := by
      rw [readStamp_history_count]
      show (if (m.sensors k).history_count < SENSOR_HISTORY_SIZE then
        (m.sensors k).history_count + 1 else (m.sensors k).history_count) = 1
      rw [hc0]
      decide
    rw [hslot, updateAnalytics_stats_seed _ _ _ hone, readStamp_stats]
    exact ⟨rfl, rfl, rfl, rfl, rfl, rfl⟩
  · intro hlen
    rcases vs.eq_nil_or_concat with rfl | ⟨ws, v, hvs⟩
    · simp at hlen
    rw [List.concat_eq_append] at hvs
    subst hvs
    have hws : ws ≠ [] := by
      intro h
      rw [h] at hlen
      simp at hlen
    obtain ⟨-, -, -, -, -, iN, iP, iS, -⟩ :=
      feedReads_spec m k (ws ++ [v]) hk ht hr hc0 hh0
    have hpos : 0 < ((feedReads m k (ws ++ [v])).sensors k).history_count := by
      rw [iN]
      simp only [SENSOR_HISTORY_SIZE_eq]
      have : 2 ≤ (ws ++ [v]).length := hlen
      omega
    have hstart : windowStart ((feedReads m k (ws ++ [v])).sensors k) <
        SENSOR_HISTORY_SIZE := by
      rw [windowStart]
      exact Nat.mod_lt _ (by decide)
    have hstats := feedReads_snoc_stats m k ws v hk ht hr hc0 hh0 hws
    have hlen2 : ((feedReads m k (ws ++ [v])).sensors k).history_count =
        (((ws ++ [v]).map (primOf k)).drop
          ((ws ++ [v]).length - SENSOR_HISTORY_SIZE)).length := by
      have hcl := congrArg List.length iP
      simp only [primWindow, unroll_length] at hcl
      exact hcl
    have hseed : ((feedReads m k (ws ++ [v])).sensors k).history
        (windowStart ((feedReads m k (ws ++ [v])).sensors k)) ∈
        ((ws ++ [v]).map (primOf k)).drop
          ((ws ++ [v]).length - SENSOR_HISTORY_SIZE) := by
      rw [← iP]
      exact unroll_head_mem _ _ _ hpos hstart
    have hmin_eq : ((feedReads m k (ws ++ [v])).sensors k).stats.local_min =
        runMin (((feedReads m k (ws ++ [v])).sensors k).history
          (windowStart ((feedReads m k (ws ++ [v])).sensors k)))
          (((ws ++ [v]).map (primOf k)).drop
            ((ws ++ [v]).length - SENSOR_HISTORY_SIZE)) := by
      rw [hstats, ← iP]
    have hmax_eq : ((feedReads m k (ws ++ [v])).sensors k).stats.local_max =
        runMax (((feedReads m k (ws ++ [v])).sensors k).history
          (windowStart ((feedReads m k (ws ++ [v])).sensors k)))
          (((ws ++ [v]).map (primOf k)).drop
            ((ws ++ [v]).length - SENSOR_HISTORY_SIZE)) := by
      rw [hstats, ← iP]
    have havg_eq : ((feedReads m k (ws ++ [v])).sensors k).stats.local_avg =
        runSum 0 (((ws ++ [v]).map (primOf k)).drop
          ((ws ++ [v]).length - SENSOR_HISTORY_SIZE)) /
          (((feedReads m k (ws ++ [v])).sensors k).history_count : ℚ) := by
      rw [hstats, ← iP]
    refine ⟨⟨?_, ?_, ?_, ?_, ?_⟩, ?_⟩
    · rw [hmin_eq]
      rcases runMin_mem _ _ with h | h
      · rw [h]
        exact hseed
      · exact h
    · intro y hy
      rw [hmin_eq]
      exact runMin_le_mem _ _ y hy
    · rw [hmax_eq]
      rcases runMax_mem _ _ with h | h
      · rw [h]
        exact hseed
      · exact h
    · intro y hy
      rw [hmax_eq]
      exact runMax_mem_le _ _ y hy
    · rw [havg_eq, runSum_eq, zero_add, hlen2]
    · -- the SHT30 secondary record
      intro hk2
      have hsstats :=
        feedReads_snoc_secondary_stats m k ws v hk ht hr hc0 hh0 hws hk2
      have hslen2 : ((feedReads m k (ws ++ [v])).sensors k).history_count =
          (((ws ++ [v]).map (secOf k)).drop
            ((ws ++ [v]).length - SENSOR_HISTORY_SIZE)).length := by
        have hcl := congrArg List.length (iS hk2)
        simp only [secWindow, unroll_length] at hcl
        exact hcl
      have hsseed : ((feedReads m k (ws ++ [v])).sensors k).secondary_history
          (windowStart ((feedReads m k (ws ++ [v])).sensors k)) ∈
          ((ws ++ [v]).map (secOf k)).drop
            ((ws ++ [v]).length - SENSOR_HISTORY_SIZE) := by
        rw [← iS hk2]
        exact unroll_head_mem _ _ _ hpos hstart
      have hsmin_eq :
          ((feedReads m k (ws ++ [v])).sensors k).secondary_stats.local_min =
          runMin (((feedReads m k (ws ++ [v])).sensors k).secondary_history
            (windowStart ((feedReads m k (ws ++ [v])).sensors k)))
            (((ws ++ [v]).map (secOf k)).drop
              ((ws ++ [v]).length - SENSOR_HISTORY_SIZE)) := by
        rw [hsstats, ← iS hk2]
      have hsmax_eq :
          ((feedReads m k (ws ++ [v])).sensors k).secondary_stats.local_max =
          runMax (((feedReads m k (ws ++ [v])).sensors k).secondary_history
            (windowStart ((feedReads m k (ws ++ [v])).sensors k)))
            (((ws ++ [v]).map (secOf k)).drop
              ((ws ++ [v]).length - SENSOR_HISTORY_SIZE)) := by
        rw [hsstats, ← iS hk2]
      have hsavg_eq :
          ((feedReads m k (ws ++ [v])).sensors k).secondary_stats.local_avg =
          runSum 0 (((ws ++ [v]).map (secOf k)).drop
            ((ws ++ [v]).length - SENSOR_HISTORY_SIZE)) /
            (((feedReads m k (ws ++ [v])).sensors k).history_count : ℚ) := by
        rw [hsstats, ← iS hk2]
      refine ⟨?_, ?_, ?_, ?_, ?_⟩
      · rw [hsmin_eq]
        rcases runMin_mem _ _ with h | h
        · rw [h]
          exact hsseed
        · exact h
      · intro y hy
        rw [hsmin_eq]
        exact runMin_le_mem _ _ y hy
      · rw [hsmax_eq]
        rcases runMax_mem _ _ with h | h
        · rw [h]
          exact hsseed
        · exact h
      · intro y hy
        rw [hsmax_eq]
        exact runMax_mem_le _ _ y hy
      · rw [hsavg_eq, runSum_eq, zero_add, hslen2]

/-- The claim C4 as stated fails at the very first sample: feeding a single
reading of 10 lux to the fresh GY30 slot leaves the windowed minimum at its
zero-initialized value although the buffer contents are `[10]`, whose true
minimum is 10 (and the claim's "windowed stats are seeded too" is violated the
same way). -/
theorem claim_C4_counterexample :
    ((feedReads testManager SENSOR_TYPE_GY30
        [SensorValues.gy30 10]).sensors SENSOR_TYPE_GY30).stats.local_min =
      0 ∧
    primWindow ((feedReads testManager SENSOR_TYPE_GY30
        [SensorValues.gy30 10]).sensors SENSOR_TYPE_GY30) = [10] ∧
    (0 : ℚ) ≠ 10 := by
  refine ⟨by decide, by decide, by decide⟩

/-- A three-sample feed on the SHT30 slot, the spec's worked example. -/
def testFeedSHT30 : List SensorValues :=
  [SensorValues.sht30 10 50, SensorValues.sht30 20 55,
   SensorValues.sht30 30 60]

/-- Witness for C4 at a concrete input: the windowed average clause after the
three-sample feed on the SHT30 slot. -/
theorem claim_C4_witness :
    2 ≤ testFeedSHT30.length ∧
    ((feedReads testManager SENSOR_TYPE_SHT30 testFeedSHT30).sensors
        SENSOR_TYPE_SHT30).stats.local_avg =
      ((testFeedSHT30.map (primOf SENSOR_TYPE_SHT30)).drop
          (testFeedSHT30.length - SENSOR_HISTORY_SIZE)).sum /
        ((((testFeedSHT30.map (primOf SENSOR_TYPE_SHT30)).drop
            (testFeedSHT30.length - SENSOR_HISTORY_SIZE)).length : ℚ)) :=
  ⟨by decide,
   (((claim_C4_windowed_stats testManager SENSOR_TYPE_SHT30 testFeedSHT30
        (by decide) (by decide) (by decide) (by decide) (by decide)).2
      (by decide)).1).2.2.2.2⟩

/-- C5 (amended): from the second sample onward, every successful read leaves
the lifetime average equal to the windowed average, in both the primary and the
secondary statistics records (for kinds without a secondary channel the
secondary record is never touched, so the equality persists from the initial
state). -/
theorem claim_C5_lifetime_avg (m : SensorManager_t) (k : Nat)
    (vs : List SensorValues)
    (hk : k < SENSOR_TYPE_MAX) (ht : (m.sensors k).type = k)
    (hr : ((m.callbacks k).read_func).isSome = true)
    (hc0 : (m.sensors k).history_count = 0)
    (hh0 : (m.sensors k).history_head = 0)
    (hsec : (m.sensors k).secondary_stats.avg =
      (m.sensors k).secondary_stats.local_avg)
    (hlen : 2 ≤ vs.length) :
    ((feedReads m k vs).sensors k).stats.avg =
      ((feedReads m k vs).sensors k).stats.local_avg ∧
    ((feedReads m k vs).sensors k).secondary_stats.avg =
      ((feedReads m k vs).sensors k).secondary_stats.local_avg := by
  rcases vs.eq_nil_or_concat with rfl | ⟨ws, v, hvs⟩
  · simp at hlen
  rw [List.concat_eq_append] at hvs
  subst hvs
  have hws : ws ≠ [] := by
    intro h
    rw [h] at hlen
    simp at hlen
  constructor
  · rw [feedReads_snoc_stats m k ws v hk ht hr hc0 hh0 hws]
  · by_cases hk2 : k = SENSOR_TYPE_SHT30
    · rw [feedReads_snoc_secondary_stats m k ws v hk ht hr hc0 hh0 hws hk2]
    · obtain ⟨-, -, -, -, -, -, -, -, iQ⟩ :=
        feedReads_spec m k (ws ++ [v]) hk ht hr hc0 hh0
      rw [iQ hk2]
      exact hsec

/-- The claim C5 as stated fails at the very first sample: after one reading of
10 lux the lifetime average is seeded to 10 while the windowed average is still
its zero-initialized value. -/
theorem claim_C5_counterexample :
    ((feedReads testManager SENSOR_TYPE_GY30
        [SensorValues.gy30 10]).sensors SENSOR_TYPE_GY30).stats.avg = 10 ∧
    ((feedReads testManager SENSOR_TYPE_GY30
        [SensorValues.gy30 10]).sensors SENSOR_TYPE_GY30).stats.local_avg =
      0 ∧
    (10 : ℚ) ≠ 0 := by
  refine ⟨by decide, by decide, by decide⟩

/-- Witness for C5 at a concrete input: the three-sample SHT30 feed. -/
theorem claim_C5_witness :
    2 ≤ testFeedSHT30.length ∧
    ((feedReads testManager SENSOR_TYPE_SHT30 testFeedSHT30).sensors
        SENSOR_TYPE_SHT30).stats.avg =
      ((feedReads testManager SENSOR_TYPE_SHT30 testFeedSHT30).sensors
        SENSOR_TYPE_SHT30).stats.local_avg ∧
    ((feedReads testManager SENSOR_TYPE_SHT30 testFeedSHT30).sensors
        SENSOR_TYPE_SHT30).secondary_stats.avg =
      ((feedReads testManager SENSOR_TYPE_SHT30 testFeedSHT30).sensors
        SENSOR_TYPE_SHT30).secondary_stats.local_avg :=
  ⟨by decide,
   claim_C5_lifetime_avg testManager SENSOR_TYPE_SHT30 testFeedSHT30
     (by decide) (by decide) (by decide) (by decide) (by decide) (by decide)
     (by decide)⟩

/-! ### Monotonicity of the lifetime extremes -/

/-- A single (attempted) successful read never raises the lifetime minimum or
lowers the lifetime maximum of either statistics record, and keeps a non-empty
history non-empty. -/
theorem UpdateSensor_stats_mono (m : SensorManager_t) (i : Nat)
    (v : SensorValues) (t : Nat)
    (hcnt : 1 ≤ (m.sensors i).history_count) :
    1 ≤ (((SensorTask_UpdateSensor m i true v t).1).sensors i).history_count ∧
    (((SensorTask_UpdateSensor m i true v t).1).sensors i).stats.min ≤
      (m.sensors i).stats.min ∧
    (m.sensors i).stats.max ≤
      (((SensorTask_UpdateSensor m i true v t).1).sensors i).stats.max ∧
    (((SensorTask_UpdateSensor m i true v t).1).sensors
        i).secondary_stats.min ≤ (m.sensors i).secondary_stats.min ∧
    (m.sensors i).secondary_stats.max ≤
      (((SensorTask_UpdateSensor m i true v t).1).sensors
        i).secondary_stats.max := by
  by_cases h4 : SENSOR_TYPE_MAX ≤ (m.sensors i).type
  · simp only [SensorTask_UpdateSensor, if_pos h4]
    exact ⟨hcnt, le_refl _, le_refl _, le_refl _, le_refl _⟩
  · by_cases hrf : ((m.callbacks (m.sensors i).type).read_func).isSome = true
    · rw [SensorTask_UpdateSensor_success m i v t (not_le.mp h4) hrf]
      simp only [setSensor_sensors_self]
      have hne : (if (readStamp (m.sensors i) v t).history_count <
          SENSOR_HISTORY_SIZE then
          (readStamp (m.sensors i) v t).history_count + 1
        else (readStamp (m.sensors i) v t).history_count) ≠ 1 := by
        rw [readStamp_history_count]
        simp only [SENSOR_HISTORY_SIZE_eq]
        split <;> omega
      refine ⟨?_, ?_, ?_, ?_, ?_⟩
      · rw [updateAnalytics_history_count, readStamp_history_count]
        split <;> omega
      · rw [updateAnalytics_stats_rescan _ _ _ hne]
        simp only [readStamp_stats]
        split
        · next h => exact le_of_lt h
        · exact le_refl _
      · rw [updateAnalytics_stats_rescan _ _ _ hne]
        simp only [readStamp_stats]
        split
        · next h => exact le_of_lt h
        · exact le_refl _
      · by_cases h2 : (readStamp (m.sensors i) v t).type = SENSOR_TYPE_SHT30
        · rw [updateAnalytics_secondary_stats_rescan _ _ _ hne h2]
          simp only [readStamp_secondary_stats]
          split
          · next h => exact le_of_lt h
          · exact le_refl _
        · rw [updateAnalytics_secondary_stats_of_ne _ _ _ h2,
            readStamp_secondary_stats]
      · by_cases h2 : (readStamp (m.sensors i) v t).type = SENSOR_TYPE_SHT30
        · rw [updateAnalytics_secondary_stats_rescan _ _ _ hne h2]
          simp only [readStamp_secondary_stats]
          split
          · next h => exact le_of_lt h
          · exact le_refl _
        · rw [updateAnalytics_secondary_stats_of_ne _ _ _ h2,
            readStamp_secondary_stats]
    · simp only [SensorTask_UpdateSensor, if_neg h4, if_neg hrf]
      exact ⟨hcnt, le_refl _, le_refl _, le_refl _, le_refl _⟩

/-- C6: once the statistics are valid (at least one sample recorded), the
lifetime minimum never increases and the lifetime maximum never decreases
across any further sequence of successful reads, for both the primary and the
secondary statistics record — even though the samples that set them may since
have been overwritten in the circular window. -/
theorem claim_C6_lifetime_monotone (m : SensorManager_t) (k : Nat)
    (vs : List SensorValues)
    (hcnt : 1 ≤ (m.sensors k).history_count) :
    ((feedReads m k vs).sensors k).stats.min ≤ (m.sensors k).stats.min ∧
    (m.sensors k).stats.max ≤ ((feedReads m k vs).sensors k).stats.max ∧
    ((feedReads m k vs).sensors k).secondary_stats.min ≤
      (m.sensors k).secondary_stats.min ∧
    (m.sensors k).secondary_stats.max ≤
      ((feedReads m k vs).sensors k).secondary_stats.max := by
  induction vs generalizing m with
  | nil => exact ⟨le_refl _, le_refl _, le_refl _, le_refl _⟩
  | cons v t ih =>
    obtain ⟨hc1, h1, h2, h3, h4⟩ := UpdateSensor_stats_mono m k v 0 hcnt
    have hfeed : feedReads m k (v :: t) =
        feedReads ((SensorTask_UpdateSensor m k true v 0).1) k t := by
      simp [feedReads]
    rw [hfeed]
    obtain ⟨g1, g2, g3, g4⟩ := ih _ hc1
    exact ⟨le_trans g1 h1, le_trans h2 g2, le_trans g3 h3, le_trans h4 g4⟩

/-- Witness for C6 at a concrete input: two further reads on the GY30 slot
after one initial read. -/
theorem claim_C6_witness :
    1 ≤ ((feedReads testManager SENSOR_TYPE_GY30
        [SensorValues.gy30 10]).sensors SENSOR_TYPE_GY30).history_count ∧
    (((feedReads (feedReads testManager SENSOR_TYPE_GY30
          [SensorValues.gy30 10]) SENSOR_TYPE_GY30
        [SensorValues.gy30 25, SensorValues.gy30 5]).sensors
        SENSOR_TYPE_GY30).stats.min ≤
      ((feedReads testManager SENSOR_TYPE_GY30
          [SensorValues.gy30 10]).sensors SENSOR_TYPE_GY30).stats.min ∧
      ((feedReads testManager SENSOR_TYPE_GY30
          [SensorValues.gy30 10]).sensors SENSOR_TYPE_GY30).stats.max ≤
        ((feedReads (feedReads testManager SENSOR_TYPE_GY30
            [SensorValues.gy30 10]) SENSOR_TYPE_GY30
          [SensorValues.gy30 25, SensorValues.gy30 5]).sensors
          SENSOR_TYPE_GY30).stats.max ∧
      ((feedReads (feedReads testManager SENSOR_TYPE_GY30
          [SensorValues.gy30 10]) SENSOR_TYPE_GY30
        [SensorValues.gy30 25, SensorValues.gy30 5]).sensors
        SENSOR_TYPE_GY30).secondary_stats.min ≤
        ((feedReads testManager SENSOR_TYPE_GY30
            [SensorValues.gy30 10]).sensors
          SENSOR_TYPE_GY30).secondary_stats.min ∧
      ((feedReads testManager SENSOR_TYPE_GY30
          [SensorValues.gy30 10]).sensors
        SENSOR_TYPE_GY30).secondary_stats.max ≤
        ((feedReads (feedReads testManager SENSOR_TYPE_GY30
            [SensorValues.gy30 10]) SENSOR_TYPE_GY30
          [SensorValues.gy30 25, SensorValues.gy30 5]).sensors
          SENSOR_TYPE_GY30).secondary_stats.max) :=
  ⟨by decide,
   claim_C6_lifetime_monotone
     (feedReads testManager SENSOR_TYPE_GY30 [SensorValues.gy30 10])
     SENSOR_TYPE_GY30 [SensorValues.gy30 25, SensorValues.gy30 5]
     (by decide)⟩

/-! ### Reductions of the enable/disable entry points -/

theorem valid_kind_guard (m : SensorManager_t) (k : Nat)
    (hinit : m.is_initialized = true) (h1 : 1 ≤ k)
    (hk : k < SENSOR_TYPE_MAX) :
    ¬(¬m.is_initialized ∨ SENSOR_TYPE_MAX ≤ k ∨ k = SENSOR_TYPE_NONE) := by
  rw [hinit]
  intro h
  rcases h with h | h | h
  · simp at h
  · simp only [SENSOR_TYPE_MAX] at h hk
    omega
  · simp only [SENSOR_TYPE_NONE] at h
    omega

theorem EnableSensor_disabled (m : SensorManager_t) (k : Nat) (cb : Bool)
    (hinit : m.is_initialized = true) (h1 : 1 ≤ k)
    (hk : k < SENSOR_TYPE_MAX)
    (hd : (m.sensors k).is_enabled = false) :
    SensorTask_EnableSensor m k cb =
      ⟨{ m.setSensor k
           { m.sensors k with
             is_enabled := true, status := .initializing,
             error_count := 0 } with
           active_sensor_count := (m.active_sensor_count + 1) % UINT32_MOD },
        true,
        SensorTask_NotifyEvent cb .status_change k none .initializing,
        false⟩ := by
  simp only [SensorTask_EnableSensor]
  rw [if_neg (valid_kind_guard m k hinit h1 hk), if_pos (by simp [hd])]

theorem EnableSensor_already (m : SensorManager_t) (k : Nat) (cb : Bool)
    (hinit : m.is_initialized = true) (h1 : 1 ≤ k)
    (hk : k < SENSOR_TYPE_MAX)
    (he : (m.sensors k).is_enabled = true) :
    SensorTask_EnableSensor m k cb = ⟨m, true, [], false⟩ := by
  simp only [SensorTask_EnableSensor]
  rw [if_neg (valid_kind_guard m k hinit h1 hk), if_neg (by simp [he])]

theorem DisableSensor_enabled (m : SensorManager_t) (k : Nat) (cb : Bool)
    (hinit : m.is_initialized = true) (h1 : 1 ≤ k)
    (hk : k < SENSOR_TYPE_MAX)
    (he : (m.sensors k).is_enabled = true) :
    SensorTask_DisableSensor m k cb =
      ⟨{ m.setSensor k
           { m.sensors k with is_enabled := false, status := .offline } with
           active_sensor_count :=
             (m.active_sensor_count + UINT32_MOD - 1) % UINT32_MOD },
        true,
        SensorTask_NotifyEvent cb .status_change k none .offline,
        ((m.callbacks k).deinit_func).isSome⟩ := by
  simp only [SensorTask_DisableSensor]
  rw [if_neg (valid_kind_guard m k hinit h1 hk), if_pos he]

theorem DisableSensor_already (m : SensorManager_t) (k : Nat) (cb : Bool)
    (hinit : m.is_initialized = true) (h1 : 1 ≤ k)
    (hk : k < SENSOR_TYPE_MAX)
    (hd : (m.sensors k).is_enabled = false) :
    SensorTask_DisableSensor m k cb = ⟨m, true, [], false⟩ := by
  simp only [SensorTask_DisableSensor]
  rw [if_neg (valid_kind_guard m k hinit h1 hk), if_neg (by simp [hd])]

/-- C8 (amended, enabled case): for a valid non-sentinel kind on an initialized
registry, disabling an enabled sensor returns true, forces status Offline,
clears the enabled flag, and invokes the adapter deinit exactly when one is
present. -/
theorem claim_C8_disable_forces_offline (m : SensorManager_t) (k : Nat)
    (cb : Bool) (hinit : m.is_initialized = true) (h1 : 1 ≤ k)
    (hk : k < SENSOR_TYPE_MAX)
    (he : (m.sensors k).is_enabled = true) :
    (SensorTask_DisableSensor m k cb).ret = true ∧
    ((SensorTask_DisableSensor m k cb).manager.sensors k).status =
      .offline ∧
    ((SensorTask_DisableSensor m k cb).manager.sensors k).is_enabled =
      false ∧
    (SensorTask_DisableSensor m k cb).deinit_called =
      ((m.callbacks k).deinit_func).isSome := by
  rw [DisableSensor_enabled m k cb hinit h1 hk he]
  refine ⟨rfl, ?_, ?_, rfl⟩ <;> simp [setSensor_sensors_self]

/-- The state reached from `testManager` by driving the GY30 slot to the hard
error threshold: the handler has disabled the slot and forced status Error. -/
def errManager : SensorManager_t :=
  (SensorTask_HandleSensorError
    (testManager.setSensor SENSOR_TYPE_GY30
      { testManager.sensors SENSOR_TYPE_GY30 with error_count := 9 })
    SENSOR_TYPE_GY30 true).manager

/-- The claim C8 as stated fails in the Error state reached after the hard
threshold: the slot is already disabled there, so `DisableSensor` returns true
but is a no-op and the status stays Error, not Offline. -/
theorem claim_C8_counterexample :
    (errManager.sensors SENSOR_TYPE_GY30).status = .error ∧
    (SensorTask_DisableSensor errManager SENSOR_TYPE_GY30 true).ret = true ∧
    ((SensorTask_DisableSensor errManager SENSOR_TYPE_GY30
        true).manager.sensors SENSOR_TYPE_GY30).status = .error ∧
    SensorStatus_t.error ≠ SensorStatus_t.offline := by
  refine ⟨by decide, by decide, by decide, by decide⟩

/-- Witness for C8 at a concrete input: disabling the enabled GY30 slot of
`testManager`. -/
theorem claim_C8_witness :
    (testManager.sensors SENSOR_TYPE_GY30).is_enabled = true ∧
    ((SensorTask_DisableSensor testManager SENSOR_TYPE_GY30 true).ret =
        true ∧
      ((SensorTask_DisableSensor testManager SENSOR_TYPE_GY30
          true).manager.sensors SENSOR_TYPE_GY30).status = .offline ∧
      ((SensorTask_DisableSensor testManager SENSOR_TYPE_GY30
          true).manager.sensors SENSOR_TYPE_GY30).is_enabled = false ∧
      (SensorTask_DisableSensor testManager SENSOR_TYPE_GY30
          true).deinit_called =
        ((testManager.callbacks SENSOR_TYPE_GY30).deinit_func).isSome) :=
  ⟨by decide,
   claim_C8_disable_forces_offline testManager SENSOR_TYPE_GY30 true
     (by decide) (by decide) (by decide) (by decide)⟩

/-- C7: `RegisterSensor` returns false and leaves the state untouched for a
NULL callback struct, an unset init or read callback, the none sentinel, an
out-of-range kind, or an uninitialized registry; on success it returns true,
stores the truncated name, the callbacks, the device handle and the interval,
clears the error counter, and enables the sensor — status Initializing, a
StatusChange event, and the active-sensor count incremented. -/
theorem claim_C7_register_guards (m : SensorManager_t) (k : Nat)
    (name : List Char) (cbs : SensorCallbacks_t) (dh iv : Nat)
    (hinit : m.is_initialized = true) (h1 : 1 ≤ k)
    (hk : k < SENSOR_TYPE_MAX)
    (hci : cbs.init_func ≠ none) (hcr : cbs.read_func ≠ none) :
    SensorTask_RegisterSensor m k name none dh iv true =
      ⟨m, false, [], false⟩ ∧
    SensorTask_RegisterSensor m k name
        (some { cbs with read_func := none }) dh iv true =
      ⟨m, false, [], false⟩ ∧
    SensorTask_RegisterSensor m k name
        (some { cbs with init_func := none }) dh iv true =
      ⟨m, false, [], false⟩ ∧
    SensorTask_RegisterSensor m SENSOR_TYPE_NONE name (some cbs) dh iv true =
      ⟨m, false, [], false⟩ ∧
    SensorTask_RegisterSensor m SENSOR_TYPE_MAX name (some cbs) dh iv true =
      ⟨m, false, [], false⟩ ∧
    SensorTask_RegisterSensor { m with is_initialized := false } k name
        (some cbs) dh iv true =
      ⟨{ m with is_initialized := false }, false, [], false⟩ ∧
    (SensorTask_RegisterSensor m k name (some cbs) dh iv true).ret = true ∧
    ((SensorTask_RegisterSensor m k name (some cbs) dh iv
        true).manager.sensors k).name =
      name.take (SENSOR_MAX_NAME_LEN - 1) ∧
    (SensorTask_RegisterSensor m k name (some cbs) dh iv
        true).manager.callbacks k = cbs ∧
    ((SensorTask_RegisterSensor m k name (some cbs) dh iv
        true).manager.sensors k).device_handle = dh ∧
    ((SensorTask_RegisterSensor m k name (some cbs) dh iv
        true).manager.sensors k).update_interval_ms = iv ∧
    ((SensorTask_RegisterSensor m k name (some cbs) dh iv
        true).manager.sensors k).error_count = 0 ∧
    ((SensorTask_RegisterSensor m k name (some cbs) dh iv
        true).manager.sensors k).is_enabled = true ∧
    ((SensorTask_RegisterSensor m k name (some cbs) dh iv
        true).manager.sensors k).status = .initializing ∧
    (SensorTask_RegisterSensor m k name (some cbs) dh iv true).events =
      [⟨.status_change, k, zeroData, .initializing⟩] ∧
    (SensorTask_RegisterSensor m k name (some cbs) dh iv
        true).manager.active_sensor_count =
      (m.active_sensor_count + 1) % UINT32_MOD := by
  have hguard : ¬(¬m.is_initialized ∨ SENSOR_TYPE_MAX ≤ k ∨
      k = SENSOR_TYPE_NONE ∨ cbs.init_func = none ∨
      cbs.read_func = none) := by
    rw [hinit]
    intro h
    rcases h with h | h | h | h | h
    · simp at h
    · simp only [SENSOR_TYPE_MAX] at h hk
      omega
    · simp only [SENSOR_TYPE_NONE] at h
      omega
    · exact hci h
    · exact hcr h
  have hsucc : SensorTask_RegisterSensor m k name (some cbs) dh iv true =
      ⟨(SensorTask_EnableSensor
          ({ m.setSensor k
              { m.sensors k with
                name := name.take (SENSOR_MAX_NAME_LEN - 1),
                device_handle := dh,
                update_interval_ms := iv,
                error_count := 0,
                is_enabled := false } with
             callbacks := Function.update m.callbacks k cbs }) k
          true).manager,
        true,
        (SensorTask_EnableSensor
          ({ m.setSensor k
              { m.sensors k with
                name := name.take (SENSOR_MAX_NAME_LEN - 1),
                device_handle := dh,
                update_interval_ms := iv,
                error_count := 0,
                is_enabled := false } with
             callbacks := Function.update m.callbacks k cbs }) k
          true).events,
        false⟩ := by
    simp only [SensorTask_RegisterSensor]
    rw [if_neg hguard]
  have hen := EnableSensor_disabled
    ({ m.setSensor k
        { m.sensors k with
          name := name.take (SENSOR_MAX_NAME_LEN - 1),
          device_handle := dh,
          update_interval_ms := iv,
          error_count := 0,
          is_enabled := false } with
       callbacks := Function.update m.callbacks k cbs }) k true
    (by simp [SensorManager_t.setSensor, hinit]) h1 hk
    (by simp [setSensor_sensors_self])
  refine ⟨rfl, ?_, ?_, ?_, ?_, ?_, ?_, ?_, ?_, ?_, ?_, ?_, ?_, ?_, ?_, ?_⟩
  · simp [SensorTask_RegisterSensor]
  · simp [SensorTask_RegisterSensor]
  · simp [SensorTask_RegisterSensor]
  · simp [SensorTask_RegisterSensor]
  · simp [SensorTask_RegisterSensor]
  · rw [hsucc]
  · rw [hsucc, hen]
    simp [setSensor_sensors_self]
  · rw [hsucc, hen]
    simp [setSensor_sensors_self, SensorManager_t.setSensor,
      Function.update_same]
  · rw [hsucc, hen]
    simp [setSensor_sensors_self]
  · rw [hsucc, hen]
    simp [setSensor_sensors_self]
  · rw [hsucc, hen]
    simp [setSensor_sensors_self]
  · rw [hsucc, hen]
    simp [setSensor_sensors_self]
  · rw [hsucc, hen]
    simp [setSensor_sensors_self]
  · rw [hsucc, hen]
    simp [SensorTask_NotifyEvent]
  · rw [hsucc, hen]
    rfl

/-- Witness for C7 at a concrete input: registering the SMOKE slot of
`testManager` with full callbacks succeeds and enables it; the failure clauses
are exercised at the same input. -/
theorem claim_C7_witness :
    testManager.is_initialized = true ∧
    (SensorTask_RegisterSensor testManager SENSOR_TYPE_SMOKE
        (String.toList "MQ-2") (some testCallbacks) 7 500 true).ret = true ∧
    ((SensorTask_RegisterSensor testManager SENSOR_TYPE_SMOKE
        (String.toList "MQ-2") (some testCallbacks) 7 500
        true).manager.sensors SENSOR_TYPE_SMOKE).status = .initializing ∧
    SensorTask_RegisterSensor testManager SENSOR_TYPE_SMOKE
        (String.toList "MQ-2")
        (some { testCallbacks with read_func := none }) 7 500 true =
      ⟨testManager, false, [], false⟩ :=
  ⟨by decide,
   (claim_C7_register_guards testManager SENSOR_TYPE_SMOKE
      (String.toList "MQ-2") testCallbacks 7 500 (by decide) (by decide)
      (by decide) (by decide) (by decide)).2.2.2.2.2.2.1,
   (claim_C7_register_guards testManager SENSOR_TYPE_SMOKE
      (String.toList "MQ-2") testCallbacks 7 500 (by decide) (by decide)
      (by decide) (by decide) (by decide)).2.2.2.2.2.2.2.2.2.2.2.2.2.1,
   (claim_C7_register_guards testManager SENSOR_TYPE_SMOKE
      (String.toList "MQ-2") testCallbacks 7 500 (by decide) (by decide)
      (by decide) (by decide) (by decide)).2.1⟩

/-- C9: `RegisterSensor` never touches the analytics state of any slot — the
history buffers, head, count, and both statistics records are identical before
and after the call, whatever its arguments and outcome — so re-registering a
previously used kind silently retains all prior history and statistics. -/
theorem claim_C9_register_preserves_analytics (m : SensorManager_t)
    (type : Nat) (name : List Char) (callbacks : Option SensorCallbacks_t)
    (dh iv : Nat) (cb : Bool) (j : Nat) :
    ((SensorTask_RegisterSensor m type name callbacks dh iv
        cb).manager.sensors j).history = (m.sensors j).history ∧
    ((SensorTask_RegisterSensor m type name callbacks dh iv
        cb).manager.sensors j).secondary_history =
      (m.sensors j).secondary_history ∧
    ((SensorTask_RegisterSensor m type name callbacks dh iv
        cb).manager.sensors j).history_head = (m.sensors j).history_head ∧
    ((SensorTask_RegisterSensor m type name callbacks dh iv
        cb).manager.sensors j).history_count = (m.sensors j).history_count ∧
    ((SensorTask_RegisterSensor m type name callbacks dh iv
        cb).manager.sensors j).stats = (m.sensors j).stats ∧
    ((SensorTask_RegisterSensor m type name callbacks dh iv
        cb).manager.sensors j).secondary_stats =
      (m.sensors j).secondary_stats := by
  rcases callbacks with - | cbs
  · exact ⟨rfl, rfl, rfl, rfl, rfl, rfl⟩
  · simp only [SensorTask_RegisterSensor, SensorTask_EnableSensor]
    split
    · exact ⟨rfl, rfl, rfl, rfl, rfl, rfl⟩
    · by_cases hj : j = type
      · subst hj
        split
        · simp [SensorManager_t.setSensor]
        · split
          · simp [SensorManager_t.setSensor]
          · simp [SensorManager_t.setSensor]
      · split
        · simp [SensorManager_t.setSensor, Function.update_noteq hj]
        · split
          · simp [SensorManager_t.setSensor, Function.update_noteq hj]
          · simp [SensorManager_t.setSensor, Function.update_noteq hj]

/-- C10: after `Init`, `GetSensorStatus` accepts the none sentinel and reports
the sentinel slot's Offline status, while `GetSensorData`, `EnableSensor`,
`DisableSensor` and `SetUpdateInterval` all reject the sentinel kind. -/
theorem claim_C10_none_sentinel :
    SensorTask_GetSensorStatus SensorTask_Init SENSOR_TYPE_NONE false =
      some SensorStatus_t.offline ∧
    (∀ m : SensorManager_t,
      SensorTask_GetSensorData m SENSOR_TYPE_NONE false = none) ∧
    (∀ (m : SensorManager_t) (cb : Bool),
      (SensorTask_EnableSensor m SENSOR_TYPE_NONE cb).ret = false) ∧
    (∀ (m : SensorManager_t) (cb : Bool),
      (SensorTask_DisableSensor m SENSOR_TYPE_NONE cb).ret = false) ∧
    (∀ (m : SensorManager_t) (ms : Nat),
      (SensorTask_SetUpdateInterval m SENSOR_TYPE_NONE ms).2 = false) := by
  refine ⟨by decide, ?_, ?_, ?_, ?_⟩
  · intro m
    simp [SensorTask_GetSensorData]
  · intro m cb
    simp [SensorTask_EnableSensor]
  · intro m cb
    simp [SensorTask_DisableSensor]
  · intro m ms
    simp [SensorTask_SetUpdateInterval]

/-! ### Fault handling: the escalation thresholds -/

theorem HandleSensorError_soft (m : SensorManager_t) (k : Nat) (cb : Bool)
    (hec : (m.sensors k).error_count = 4) :
    ((SensorTask_HandleSensorError m k cb).manager.sensors k).error_count =
      5 ∧
    ((SensorTask_HandleSensorError m k cb).manager.sensors k).status =
      .initializing ∧
    ((SensorTask_HandleSensorError m k cb).manager.sensors k).is_enabled =
      (m.sensors k).is_enabled ∧
    (SensorTask_HandleSensorError m k cb).events = [] ∧
    (SensorTask_HandleSensorError m k cb).deinit_called = false ∧
    (SensorTask_HandleSensorError m k cb).manager.active_sensor_count =
      m.active_sensor_count := by
  have h5 : ((m.sensors k).error_count + 1) % UINT32_MOD = 5 := by
    rw [hec]
    decide
  simp only [SensorTask_HandleSensorError, h5]
  rw [if_neg (by decide)]
  rw [if_pos trivial]
  refine ⟨?_, ?_, ?_, rfl, rfl, rfl⟩ <;> simp [setSensor_sensors_self]

theorem HandleSensorError_hard (m : SensorManager_t) (k : Nat)
    (hinit : m.is_initialized = true) (h1 : 1 ≤ k) (hk : k < SENSOR_TYPE_MAX)
    (ht : (m.sensors k).type = k) (he : (m.sensors k).is_enabled = true)
    (hec : (m.sensors k).error_count = 9) :
    ((SensorTask_HandleSensorError m k true).manager.sensors k).error_count =
      10 ∧
    ((SensorTask_HandleSensorError m k true).manager.sensors k).status =
      .error ∧
    ((SensorTask_HandleSensorError m k true).manager.sensors k).is_enabled =
      false ∧
    (SensorTask_HandleSensorError m k true).deinit_called =
      ((m.callbacks k).deinit_func).isSome ∧
    (SensorTask_HandleSensorError m k true).events =
      [⟨.status_change, k, zeroData, .offline⟩,
       ⟨.status_change, k, zeroData, .error⟩] ∧
    (SensorTask_HandleSensorError m k true).manager.is_initialized = true := by
  have h10 : ((m.sensors k).error_count + 1) % UINT32_MOD = 10 := by
    rw [hec]
    decide
  simp only [SensorTask_HandleSensorError, h10]
  rw [if_neg (show ¬((10 : Nat) = 5) by decide)]
  have htype : ((m.setSensor k
      { m.sensors k with error_count := 10 }).sensors k).type = k := by
    rw [setSensor_sensors_self]
    exact ht
  rw [htype]
  have hd := DisableSensor_enabled
    (m.setSensor k { m.sensors k with error_count := 10 }) k true
    (by rw [setSensor_is_initialized]; exact hinit) h1 hk
    (by rw [setSensor_sensors_self]; exact he)
  rw [hd]
  refine ⟨?_, ?_, ?_, ?_, ?_, ?_⟩
  · simp [setSensor_sensors_self]
  · simp [setSensor_sensors_self]
  · simp [setSensor_sensors_self]
  · simp [setSensor_callbacks]
  · simp [SensorTask_NotifyEvent, setSensor_sensors_self, ht]
  · simp [setSensor_is_initialized, hinit]

theorem DisableSensor_error_count (m : SensorManager_t) (t : Nat) (cb : Bool)
    (j : Nat) :
    ((SensorTask_DisableSensor m t cb).manager.sensors j).error_count =
      (m.sensors j).error_count := by
  simp only [SensorTask_DisableSensor]
  split
  · rfl
  · split
    · by_cases hj : j = t
      · subst hj
        simp [SensorManager_t.setSensor]
      · simp [SensorManager_t.setSensor, Function.update_noteq hj]
    · rfl

theorem HandleSensorError_increment (m : SensorManager_t) (k : Nat)
    (cb : Bool) :
    ((SensorTask_HandleSensorError m k cb).manager.sensors k).error_count =
      ((m.sensors k).error_count + 1) % UINT32_MOD := by
  simp only [SensorTask_HandleSensorError]
  split_ifs <;>
    simp [DisableSensor_error_count, setSensor_sensors_self]

/-- C1: every failed init or read increments `error_count` by one; reaching the
soft threshold 5 sets the status to Initializing without disabling; reaching
the hard threshold 10 disables the sensor (running the adapter deinit when
present), forces status Error and emits a StatusChange(Error) event; a
subsequent `EnableSensor` resets `error_count` to 0 and the status back to
Initializing. -/
theorem claim_C1_error_escalation (m : SensorManager_t) (k : Nat)
    (hinit : m.is_initialized = true) (h1 : 1 ≤ k)
    (hk : k < SENSOR_TYPE_MAX) (ht : (m.sensors k).type = k)
    (he : (m.sensors k).is_enabled = true) :
    (∀ cb : Bool,
      ((SensorTask_HandleSensorError m k cb).manager.sensors k).error_count =
        ((m.sensors k).error_count + 1) % UINT32_MOD) ∧
    (((SensorTask_HandleSensorError
        (m.setSensor k { m.sensors k with error_count := 4 }) k
        true).manager.sensors k).error_count = 5 ∧
      ((SensorTask_HandleSensorError
          (m.setSensor k { m.sensors k with error_count := 4 }) k
          true).manager.sensors k).status = .initializing ∧
      ((SensorTask_HandleSensorError
          (m.setSensor k { m.sensors k with error_count := 4 }) k
          true).manager.sensors k).is_enabled = true ∧
      (SensorTask_HandleSensorError
          (m.setSensor k { m.sensors k with error_count := 4 }) k
          true).events = [] ∧
      (SensorTask_HandleSensorError
          (m.setSensor k { m.sensors k with error_count := 4 }) k
          true).deinit_called = false) ∧
    (((SensorTask_HandleSensorError
        (m.setSensor k { m.sensors k with error_count := 9 }) k
        true).manager.sensors k).error_count = 10 ∧
      ((SensorTask_HandleSensorError
          (m.setSensor k { m.sensors k with error_count := 9 }) k
          true).manager.sensors k).status = .error ∧
      ((SensorTask_HandleSensorError
          (m.setSensor k { m.sensors k with error_count := 9 }) k
          true).manager.sensors k).is_enabled = false ∧
      (SensorTask_HandleSensorError
          (m.setSensor k { m.sensors k with error_count := 9 }) k
          true).deinit_called = ((m.callbacks k).deinit_func).isSome ∧
      (SensorTask_HandleSensorError
          (m.setSensor k { m.sensors k with error_count := 9 }) k
          true).events =
        [⟨.status_change, k, zeroData, .offline⟩,
         ⟨.status_change, k, zeroData, .error⟩]) ∧
    ((SensorTask_EnableSensor
        (SensorTask_HandleSensorError
          (m.setSensor k { m.sensors k with error_count := 9 }) k
          true).manager k true).ret = true ∧
      (((SensorTask_EnableSensor
          (SensorTask_HandleSensorError
            (m.setSensor k { m.sensors k with error_count := 9 }) k
            true).manager k true).manager.sensors k).error_count = 0 ∧
      ((SensorTask_EnableSensor
          (SensorTask_HandleSensorError
            (m.setSensor k { m.sensors k with error_count := 9 }) k
            true).manager k true).manager.sensors k).status =
        .initializing)) := by
  have hec4 : ((m.setSensor k
      { m.sensors k with error_count := 4 }).sensors k).error_count = 4 := by
    simp [setSensor_sensors_self]
  have hsoft := HandleSensorError_soft
    (m.setSensor k { m.sensors k with error_count := 4 }) k true hec4
  have hinit9 : (m.setSensor k
      { m.sensors k with error_count := 9 }).is_initialized = true := by
    rw [setSensor_is_initialized]
    exact hinit
  have ht9 : ((m.setSensor k
      { m.sensors k with error_count := 9 }).sensors k).type = k := by
    rw [setSensor_sensors_self]
    exact ht
  have he9 : ((m.setSensor k
      { m.sensors k with error_count := 9 }).sensors k).is_enabled = true := by
    rw [setSensor_sensors_self]
    exact he
  have hec9 : ((m.setSensor k
      { m.sensors k with error_count := 9 }).sensors k).error_count = 9 := by
    simp [setSensor_sensors_self]
  have hhard := HandleSensorError_hard
    (m.setSensor k { m.sensors k with error_count := 9 }) k hinit9 h1 hk ht9
    he9 hec9
  obtain ⟨c1, c2, c3, c4, c5, c6⟩ := hhard
  have hre := EnableSensor_disabled
    (SensorTask_HandleSensorError
      (m.setSensor k { m.sensors k with error_count := 9 }) k true).manager k
    true c6 h1 hk c3
  refine ⟨fun cb => HandleSensorError_increment m k cb,
    ⟨hsoft.1, hsoft.2.1, ?_, hsoft.2.2.2.1, hsoft.2.2.2.2.1⟩,
    ⟨c1, c2, c3, c4, c5⟩, ?_, ?_, ?_⟩
  · rw [hsoft.2.2.1]
    simpa [setSensor_sensors_self] using he
  · rw [hre]
  · rw [hre]
    simp [setSensor_sensors_self]
  · rw [hre]
    simp [setSensor_sensors_self]

/-- Witness for C1 at a concrete input: the enabled GY30 slot of `testManager`
at the soft threshold, the hard threshold, and after re-enabling. -/
theorem claim_C1_witness :
    (testManager.sensors SENSOR_TYPE_GY30).is_enabled = true ∧
    ((SensorTask_HandleSensorError
        (testManager.setSensor SENSOR_TYPE_GY30
          { testManager.sensors SENSOR_TYPE_GY30 with error_count := 4 })
        SENSOR_TYPE_GY30 true).manager.sensors SENSOR_TYPE_GY30).status =
      .initializing ∧
    ((SensorTask_HandleSensorError
        (testManager.setSensor SENSOR_TYPE_GY30
          { testManager.sensors SENSOR_TYPE_GY30 with error_count := 9 })
        SENSOR_TYPE_GY30 true).manager.sensors SENSOR_TYPE_GY30).status =
      .error ∧
    ((SensorTask_EnableSensor
        (SensorTask_HandleSensorError
          (testManager.setSensor SENSOR_TYPE_GY30
            { testManager.sensors SENSOR_TYPE_GY30 with error_count := 9 })
          SENSOR_TYPE_GY30 true).manager SENSOR_TYPE_GY30
        true).manager.sensors SENSOR_TYPE_GY30).error_count = 0 :=
  ⟨by decide,
   (claim_C1_error_escalation testManager SENSOR_TYPE_GY30 (by decide)
      (by decide) (by decide) (by decide) (by decide)).2.1.2.1,
   (claim_C1_error_escalation testManager SENSOR_TYPE_GY30 (by decide)
      (by decide) (by decide) (by decide) (by decide)).2.2.1.2.1,
   (claim_C1_error_escalation testManager SENSOR_TYPE_GY30 (by decide)
      (by decide) (by decide) (by decide) (by decide)).2.2.2.2.1⟩

theorem UINT32_MOD_eq : UINT32_MOD = 4294967296 := by norm_num [UINT32_MOD]

theorem u32sub_self_mod (t : Nat) : u32sub t (t % UINT32_MOD) = 0 := by
  simp only [u32sub, UINT32_MOD_eq]
  omega

/-- C2 (amended): a successful read resets `error_count` to 0, but a
successful init in the scheduler's Initializing step leaves `error_count`
unchanged — it only moves the status to Online (no read is attempted in the
same cycle when the configured interval is positive, since the init stamps
`last_update_time`). -/
theorem claim_C2_error_count_reset (m : SensorManager_t) (k : Nat)
    (hk : k < SENSOR_TYPE_MAX) (ht : (m.sensors k).type = k)
    (hr : ((m.callbacks k).read_func).isSome = true)
    (hi : ((m.callbacks k).init_func).isSome = true)
    (he : (m.sensors k).is_enabled = true)
    (hst : (m.sensors k).status = .initializing)
    (hiv : (m.sensors k).update_interval_ms ≠ 0) :
    (∀ (v : SensorValues) (t : Nat),
      (((SensorTask_UpdateSensor m k true v t).1).sensors k).error_count =
        0) ∧
    (∀ (v : SensorValues) (now : Nat),
      ((SensorTask_CycleSensor m k true true v now true).1.sensors k).status =
        .online ∧
      ((SensorTask_CycleSensor m k true true v now
          true).1.sensors k).error_count = (m.sensors k).error_count) := by
  constructor
  · intro v t
    rw [SensorTask_UpdateSensor_success m k v t (by rw [ht]; exact hk)
      (by rw [ht]; exact hr)]
    simp [setSensor_sensors_self, updateAnalytics_error_count,
      readStamp_error_count]
  · intro v now
    have hinitok : SensorTask_InitializeSensor m k true = true := by
      simp only [SensorTask_InitializeSensor]
      rw [if_neg (by rw [ht]; exact not_le.mpr hk), if_pos (by rw [ht]; exact hi)]
    simp only [SensorTask_CycleSensor]
    rw [if_neg (by simp [he]), if_pos hst, if_pos hinitok]
    simp only [setSensor_sensors_self]
    have hcond : ¬((m.sensors k).update_interval_ms ≤
        u32sub now (now % UINT32_MOD)) := by
      rw [u32sub_self_mod]
      omega
    rw [if_neg hcond]
    simp [setSensor_sensors_self]

/-- `testManager` with the GY30 slot back in Initializing with three
accumulated errors. -/
def initManager3 : SensorManager_t :=
  testManager.setSensor SENSOR_TYPE_GY30
    { testManager.sensors SENSOR_TYPE_GY30 with
      status := .initializing, error_count := 3 }

/-- The claim C2 as stated fails for a successful init: cycling the GY30 slot
of `initManager3` with a succeeding `init` brings it Online but leaves
`error_count` at 3 instead of resetting it to 0. -/
theorem claim_C2_counterexample :
    ((SensorTask_CycleSensor initManager3 SENSOR_TYPE_GY30 true true
        (SensorValues.gy30 7) 1000 true).1.sensors SENSOR_TYPE_GY30).status =
      .online ∧
    ((SensorTask_CycleSensor initManager3 SENSOR_TYPE_GY30 true true
        (SensorValues.gy30 7) 1000
        true).1.sensors SENSOR_TYPE_GY30).error_count = 3 ∧
    (3 : Nat) ≠ 0 := by
  refine ⟨by decide, by decide, by decide⟩

/-- Witness for C2 at a concrete input: the GY30 slot of `initManager3`. -/
theorem claim_C2_witness :
    (initManager3.sensors SENSOR_TYPE_GY30).status = .initializing ∧
    ((SensorTask_UpdateSensor initManager3 SENSOR_TYPE_GY30 true
        (SensorValues.gy30 5) 42).1.sensors SENSOR_TYPE_GY30).error_count =
      0 ∧
    ((SensorTask_CycleSensor initManager3 SENSOR_TYPE_GY30 true true
        (SensorValues.gy30 5) 1000 true).1.sensors SENSOR_TYPE_GY30).status =
      .online ∧
    ((SensorTask_CycleSensor initManager3 SENSOR_TYPE_GY30 true true
        (SensorValues.gy30 5) 1000
        true).1.sensors SENSOR_TYPE_GY30).error_count =
      (initManager3.sensors SENSOR_TYPE_GY30).error_count :=
  ⟨by decide,
   (claim_C2_error_count_reset initManager3 SENSOR_TYPE_GY30 (by decide)
      (by decide) (by decide) (by decide) (by decide) (by decide)
      (by decide)).1 (SensorValues.gy30 5) 42,
   ((claim_C2_error_count_reset initManager3 SENSOR_TYPE_GY30 (by decide)
      (by decide) (by decide) (by decide) (by decide) (by decide)
      (by decide)).2 (SensorValues.gy30 5) 1000).1,
   ((claim_C2_error_count_reset initManager3 SENSOR_TYPE_GY30 (by decide)
      (by decide) (by decide) (by decide) (by decide) (by decide)
      (by decide)).2 (SensorValues.gy30 5) 1000).2⟩
